import Mathlib

/-!
Shallow embedding of the MetaSPN gates decision engine
(`metaspn_gates/evaluator.py`, `applier.py`, `config.py`, `learning.py`).

Python runtime values (feature snapshots, entity states, JSON-like config
payloads) are modelled by the inductive type `Value`: numbers split into
`int` (Python `int`) and `float` (Python `float`, modelled exactly by `Rat`),
lists and dicts are cons-encoded so that every operation is structurally
recursive and kernel-evaluable.  `datetime` objects are modelled by
`PyDateTime`: an instant in seconds together with the tz-awareness flag;
`isoformat`/`fromisoformat` are modelled by an injective textual encoding of
that structure (the concrete ISO-8601 digit layout carries no algorithmic
content for the verified properties: only round-tripping, parse failure on
non-conforming text, and ordering matter).

Python exceptions are modelled by `Except`: `ValueError` and `TypeError`
raised by the evaluator become `EvalErr`, `ConfigError` becomes `ConfigErr`,
the applier's and the learning module's `ValueError`s become
`ApplyErr`/`LearnErr` (structured constructors standing for the Python
message strings).  In particular, `models.GateDecision` declares fourteen
required dataclass fields while the evaluator's constructor call passes
only twelve of them, so every evaluation of a matched gate ends in a
`TypeError` (`EvalErr.typeErrorDecision`); the per-gate locals computed
before that call are exposed as `decision_fields`.
-/

set_option maxHeartbeats 1000000

namespace MetaSPN

open scoped Lex

/-- Model of a Python `datetime.datetime`: `secs` is the wall-clock instant in
seconds (read as UTC when the value is naive), `aware` says whether a tzinfo
is attached.  `replace(tzinfo=timezone.utc)` on a naive value keeps the
wall-clock reading, hence keeps `secs` and sets `aware`. -/
structure PyDateTime where
  secs : Int
  aware : Bool
  deriving Repr, DecidableEq

/-- Model of `datetime + timedelta(seconds=s)`: shifts the instant, keeps
awareness. -/
def PyDateTime.addSeconds (d : PyDateTime) (s : Int) : PyDateTime :=
  ⟨d.secs + s, d.aware⟩

/-- Normalisation used by `evaluator._check_cooldown` and `learning._as_utc`:
a naive timestamp is reinterpreted as UTC (`replace(tzinfo=utc)`), an aware
one is converted to UTC without moving the instant (`astimezone(utc)`). -/
def PyDateTime.as_utc (d : PyDateTime) : PyDateTime :=
  ⟨d.secs, true⟩

/-- Python runtime values.  Lists and dicts are cons-encoded (`nilL/consL`,
`nilO/consO`) so that all operations below are plain structural recursions. -/
inductive Value where
  | null : Value
  | bool : Bool → Value
  | int : Int → Value
  | float : Rat → Value
  | str : String → Value
  | dt : PyDateTime → Value
  | nilL : Value
  | consL : Value → Value → Value
  | nilO : Value
  | consO : String → Value → Value → Value
  deriving Repr, DecidableEq

/-- Dict lookup, `mapping.get(key)` / `mapping[key]` on present keys. -/
def lookupO : Value → String → Option Value
  | .consO k v rest, key => if k = key then some v else lookupO rest key
  | _, _ => none

/-- Number of entries of a dict value (`len`). -/
def objLen : Value → Nat
  | .consO _ _ rest => objLen rest + 1
  | _ => 0

/-- The `isinstance(x, Mapping)` test. -/
def isMapping : Value → Bool
  | .nilO => true
  | .consO _ _ _ => true
  | _ => false

/-- The `isinstance(x, list)` test. -/
def isPyList : Value → Bool
  | .nilL => true
  | .consL _ _ => true
  | _ => false

/-- A list value as a Lean list of its elements. -/
def listItems : Value → List Value
  | .consL a rest => a :: listItems rest
  | _ => []

/-- A dict value as a Lean association list of its entries. -/
def objItems : Value → List (String × Value)
  | .consO k v rest => (k, v) :: objItems rest
  | _ => []

/-- Build a list value from a Lean list. -/
def listV : List Value → Value
  | [] => .nilL
  | a :: rest => .consL a (listV rest)

/-- Build a dict value from a Lean association list. -/
def objV : List (String × Value) → Value
  | [] => .nilO
  | (k, v) :: rest => .consO k v (objV rest)

/-- Append one element at the end of a list value (`list.append`). -/
def appendL (l : Value) (x : Value) : Value :=
  match l with
  | .consL a rest => .consL a (appendL rest x)
  | _ => .consL x .nilL

/-- Dict update `d[key] = v`: replaces the value at an existing key in place,
otherwise appends the new entry at the end (Python dict insertion order). -/
def setO (o : Value) (key : String) (v : Value) : Value :=
  match o with
  | .consO k w rest => if k = key then .consO k v rest else .consO k w (setO rest key v)
  | _ => .consO key v .nilO

/-- Python truthiness (`bool(x)`), used by `or`-defaulting in the config
parser and by `bool(...)` coercions in the learning module. -/
def truthy : Value → Bool
  | .null => false
  | .bool b => b
  | .int n => n != 0
  | .float q => q != 0
  | .str s => s ≠ ""
  | .dt _ => true
  | .nilL => false
  | .consL _ _ => true
  | .nilO => false
  | .consO _ _ _ => true

/-- Python `==` between runtime values.  Numbers (`bool` counts as a number,
being an `int` subclass) compare by numeric value across `int`/`float`;
lists compare pointwise; dicts compare as key-value sets.  The flag selects
the auxiliary dict-subset mode (`true`: is every entry of the first dict
matched in the second?), inlined here so the whole definition is a single
structural recursion that the kernel can evaluate. -/
def pyEqAux : Bool → Value → Value → Bool
  | true, .consO k v rest, other =>
      (match lookupO other k with
       | some w => pyEqAux false v w
       | none => false) &&
      pyEqAux true rest other
  | true, _, _ => true
  | false, .null, .null => true
  | false, .bool a, .bool b => a == b
  | false, .bool a, .int b => (if a then (1 : Int) else 0) == b
  | false, .bool a, .float b => mkRat (if a then 1 else 0) 1 == b
  | false, .int a, .bool b => a == (if b then (1 : Int) else 0)
  | false, .int a, .int b => a == b
  | false, .int a, .float b => mkRat a 1 == b
  | false, .float a, .bool b => a == mkRat (if b then 1 else 0) 1
  | false, .float a, .int b => a == mkRat b 1
  | false, .float a, .float b => a == b
  | false, .str a, .str b => a == b
  | false, .dt a, .dt b => a == b
  | false, .nilL, .nilL => true
  | false, .consL a as, .consL b bs => pyEqAux false a b && pyEqAux false as bs
  | false, .nilO, other => isMapping other && objLen other == 0
  | false, .consO k v rest, other =>
      isMapping other && (objLen rest + 1) == objLen other &&
      (match lookupO other k with
       | some w => pyEqAux false v w
       | none => false) &&
      pyEqAux true rest other
  | false, _, _ => false

/-- Python `==`. -/
def pyEq (a b : Value) : Bool := pyEqAux false a b

/-- Numeric reading of a value for ordered comparisons (`int`, `float` and
`bool` take part in Python numeric ordering). -/
def asNum : Value → Option Rat
  | .bool b => some (mkRat (if b then 1 else 0) 1)
  | .int n => some (mkRat n 1)
  | .float q => some q
  | _ => none

/-- Decidable equality for `Except` results, so concrete runs of the
embedded functions can be settled by `decide`. -/
instance instDecEqExcept {ε α : Type} [DecidableEq ε] [DecidableEq α] :
    DecidableEq (Except ε α) := fun a b =>
  match a, b with
  | .ok x, .ok y =>
      if h : x = y then .isTrue (by rw [h]) else .isFalse (by intro hc; cases hc; exact h rfl)
  | .error x, .error y =>
      if h : x = y then .isTrue (by rw [h]) else .isFalse (by intro hc; cases hc; exact h rfl)
  | .ok _, .error _ => .isFalse (by intro hc; cases hc)
  | .error _, .ok _ => .isFalse (by intro hc; cases hc)

/-- Errors raised by the evaluator at runtime (`ValueError`/`TypeError`).
`typeErrorDecision` is the `TypeError` raised by the `GateDecision(...)`
constructor call at `evaluator.py` lines 170-184: `models.GateDecision`
(models.py lines 64-79) declares `cooldown_scope` and `cooldown_scope_key`
as required dataclass fields (no defaults), and the call does not pass
them, so Python reports two missing required positional arguments. -/
inductive EvalErr where
  | unsupportedOp (op : String)
  | typeError
  | invalidIso (s : String)
  | typeErrorDecision
  deriving Repr, DecidableEq

/-- Three-way numeric/string/datetime/list ordering backing Python `<`,
`<=`, `>`, `>=`; unordered operand pairs raise `TypeError`, and a
naive/aware datetime pair does too.  Two lists compare as CPython's
`list_richcompare`: scan for the first index where the elements are not
`==`-equal and order by those elements (which may itself raise), and when
one list is a prefix of the other order by length. -/
def pyOrd (a b : Value) : Except EvalErr Ordering :=
  match a, b with
  | .nilL, .nilL => .ok .eq
  | .nilL, .consL _ _ => .ok .lt
  | .consL _ _, .nilL => .ok .gt
  | .consL x xs, .consL y ys =>
      if pyEq x y then pyOrd xs ys else pyOrd x y
  | a, b =>
    match asNum a, asNum b with
    | some x, some y => .ok (if x < y then .lt else if y < x then .gt else .eq)
    | _, _ =>
      match a, b with
      | .str s, .str t =>
          .ok (if s.data < t.data then .lt else if t.data < s.data then .gt else .eq)
      | .dt x, .dt y =>
          if x.aware = y.aware then
            .ok (if x.secs < y.secs then .lt else if y.secs < x.secs then .gt else .eq)
          else .error .typeError
      | _, _ => .error .typeError

/-- Is `needle` a prefix of `hay`? (char-list level). -/
def prefixChars : List Char → List Char → Bool
  | [], _ => true
  | _ :: _, [] => false
  | a :: as, b :: bs => a == b && prefixChars as bs

/-- Is `needle` a contiguous substring of `hay`? (Python `str in str`). -/
def subChars (needle : List Char) : List Char → Bool
  | [] => prefixChars needle []
  | c :: rest => prefixChars needle (c :: rest) || subChars needle rest

/-- Python membership `actual in expected`: element of a list (by `==`),
substring of a string, or key of a dict; anything else raises `TypeError`. -/
def pyContains (actual expected : Value) : Except EvalErr Bool :=
  match expected with
  | .nilL => .ok ((listItems expected).any (pyEq actual))
  | .consL _ _ => .ok ((listItems expected).any (pyEq actual))
  | .str t =>
      match actual with
      | .str s => .ok (subChars s.data t.data)
      | _ => .error .typeError
  | .nilO => .ok ((objItems expected).any (fun kv => pyEq actual (.str kv.1)))
  | .consO _ _ _ => .ok ((objItems expected).any (fun kv => pyEq actual (.str kv.1)))
  | _ => .error .typeError

/-- `evaluator._compare`: dispatch on the operator name; an unrecognised
operator raises `ValueError(f"unsupported operator: {op}")`. -/
def compare_op (op : String) (actual expected : Value) : Except EvalErr Bool :=
  if op = "eq" then .ok (pyEq actual expected)
  else if op = "ne" then .ok (!pyEq actual expected)
  else if op = "gt" then (pyOrd actual expected).map (fun o => o == .gt)
  else if op = "gte" then (pyOrd actual expected).map (fun o => o != .lt)
  else if op = "lt" then (pyOrd actual expected).map (fun o => o == .lt)
  else if op = "lte" then (pyOrd actual expected).map (fun o => o != .gt)
  else if op = "in" then pyContains actual expected
  else if op = "not_in" then (pyContains actual expected).map (fun b => !b)
  else .error (.unsupportedOp op)

/-- Split a character list at a separator (`str.split` semantics: an empty
input yields one empty field, adjacent separators yield empty fields). -/
def splitSepChars (sep : Char) : List Char → List (List Char)
  | [] => [[]]
  | c :: cs =>
      if c == sep then [] :: splitSepChars sep cs
      else
        match splitSepChars sep cs with
        | g :: gs => (c :: g) :: gs
        | [] => [[c]]

/-- `path.split(".")`. -/
def splitDot (s : String) : List String :=
  (splitSepChars '.' s.data).map (fun cs => ⟨cs⟩)

/-- The walk inside `evaluator._get_path`: each key requires the current
value to be a mapping that contains it. -/
def walkPath : Value → List String → Option Value
  | current, [] => some current
  | current, key :: rest =>
      if isMapping current then
        match lookupO current key with
        | some nxt => walkPath nxt rest
        | none => none
      else none

/-- `evaluator._get_path`: `some v` models the `(True, value)` outcome,
`none` models `(False, None)`. -/
def get_path (mapping : Value) (path : String) : Option Value :=
  walkPath mapping (splitDot path)

/-- `evaluator._requirement_passed`. -/
def requirement_passed (source : Value) (field : String) (op : String) (value : Value) :
    Except EvalErr Bool :=
  if op = "exists" then .ok (get_path source field).isSome
  else if op = "not_exists" then .ok (get_path source field).isNone
  else
    match get_path source field with
    | none => .ok false
    | some actual => compare_op op actual value

/-- Model of `datetime.isoformat()`: an injective rendering of the instant,
with the `+00:00` offset suffix exactly when the value is tz-aware (a naive
datetime prints no offset).  The ISO-8601 digit layout is abstracted to the
seconds count; `fromisoformat` below is its partial inverse. -/
def PyDateTime.isoformat (d : PyDateTime) : String :=
  toString d.secs ++ (if d.aware then "+00:00" else "")

/-- Digit-string accumulator for `fromisoformat`. -/
def digitsToNatAux (acc : Nat) : List Char → Option Nat
  | [] => some acc
  | c :: cs => if c.isDigit then digitsToNatAux (10 * acc + (c.toNat - '0'.toNat)) cs else none

/-- Parse a non-empty all-digit character list. -/
def digitsToNat (cs : List Char) : Option Nat :=
  if cs.isEmpty then none else digitsToNatAux 0 cs

/-- Parse an optionally signed integer character list. -/
def parseIntChars : List Char → Option Int
  | '-' :: rest => (digitsToNat rest).map (fun n => -(n : Int))
  | cs => (digitsToNat cs).map (fun n => (n : Int))

/-- Model of `datetime.fromisoformat`: accepts exactly the strings produced
by `PyDateTime.isoformat` (`none` models the `ValueError` Python raises on a
non-ISO string). -/
def fromisoformat (s : String) : Option PyDateTime :=
  let cs := s.data
  let offsetChars := "+00:00".data
  if cs.length ≥ 6 && cs.drop (cs.length - 6) == offsetChars then
    (parseIntChars (cs.take (cs.length - 6))).map (fun n => ⟨n, true⟩)
  else
    (parseIntChars cs).map (fun n => ⟨n, false⟩)

/-- `models.HardRequirement`. -/
structure HardRequirement where
  requirement_id : String
  field : String
  op : String
  value : Value := .null
  source : String := "features"
  deriving Repr, DecidableEq

/-- `models.SoftThreshold`. -/
structure SoftThreshold where
  threshold_id : String
  field : String
  op : String
  value : Value
  source : String := "features"
  deriving Repr, DecidableEq

/-- `models.GateConfig`.  The `cooldown_scope`/`cooldown_channel_field`/
`cooldown_playbook_field`/`suppression_field` fields declared in `models.py`
are omitted: neither the evaluator nor the applier ever reads them. -/
structure GateConfig where
  gate_id : String
  version : String
  track : Option String
  from_state : String
  to_state : String
  hard_requirements : List HardRequirement := []
  soft_thresholds : List SoftThreshold := []
  min_soft_passed : Option Int := none
  cooldown_seconds : Int := 0
  cooldown_on : String := "pass"
  enqueue_tasks_on_pass : List String := []
  failure_taxonomy : List (String × String) := []
  deriving Repr, DecidableEq

/-- `models.StateMachineConfig`. -/
structure StateMachineConfig where
  config_version : String
  gates : List GateConfig
  deriving Repr, DecidableEq

/-- `models.TransitionAttempted`. -/
structure TransitionAttempted where
  gate_id : String
  from_state : String
  to_state : String
  passed : Bool
  timestamp : PyDateTime
  reason : Option String
  failed_requirement_id : Option String
  snapshot : Value
  deriving Repr, DecidableEq

/-- `models.GateDecision` (models.py lines 64-79).  Every field of the
frozen dataclass has no default, so every one of them - including
`cooldown_scope` and `cooldown_scope_key` - is a required `__init__`
argument; the evaluator's constructor call omits those two, which is the
`TypeError` modelled by `EvalErr.typeErrorDecision` below. -/
structure GateDecision where
  gate_id : String
  gate_version : String
  track : Option String
  from_state : String
  to_state : String
  passed : Bool
  reason : Option String
  failed_requirement_id : Option String
  cooldown_active : Bool
  cooldown_on : String
  cooldown_scope : String
  cooldown_scope_key : Option String
  enqueue_tasks_on_pass : List String
  transition_attempted : TransitionAttempted
  deriving Repr, DecidableEq

/-- Final comparison of `evaluator._check_cooldown` (lines 72-77): both
timestamps are normalised to UTC (naive values reinterpreted, aware values
kept at the same instant) and the gate is blocked iff
`now < last_attempt + timedelta(seconds=cooldown_seconds)`. -/
def cooldown_window_open (last now : PyDateTime) (cooldown_seconds : Int) : Bool :=
  let l := if last.aware then last else last.as_utc
  let n := if now.aware then now else now.as_utc
  decide (n.secs < (l.addSeconds cooldown_seconds).secs)

/-- `evaluator._check_cooldown`: `gate_cooldowns` entries that are absent,
`None`, a non-mapping container or a non-string non-datetime value yield no
cooldown; a string entry is parsed with `datetime.fromisoformat`, whose
failure propagates as a `ValueError`. -/
def check_cooldown (gate : GateConfig) (entity_state : Value) (now : PyDateTime) :
    Except EvalErr Bool :=
  if gate.cooldown_seconds ≤ 0 then .ok false
  else
    match lookupO entity_state "gate_cooldowns" with
    | none => .ok false
    | some cooldowns =>
      if !isMapping cooldowns then .ok false
      else
        match lookupO cooldowns gate.gate_id with
        | none => .ok false
        | some .null => .ok false
        | some (.str s) =>
            match fromisoformat s with
            | none => .error (.invalidIso s)
            | some last => .ok (cooldown_window_open last now gate.cooldown_seconds)
        | some (.dt last) => .ok (cooldown_window_open last now gate.cooldown_seconds)
        | some _ => .ok false

/-- `evaluator._matches_state`: the entity must sit in the gate's source
state, and when the gate carries a track tag the entity's track must equal
it (Python `!=`/`==` are `pyEq`). -/
def matches_state (gate : GateConfig) (entity_state : Value) : Bool :=
  if !pyEq ((lookupO entity_state "state").getD .null) (.str gate.from_state) then false
  else
    match gate.track with
    | none => true
    | some tr => pyEq ((lookupO entity_state "track").getD .null) (.str tr)

/-- The hard-requirement loop of `evaluate_gates` (lines 126-132): evaluate
in declared order, stop at the first requirement that fails; evaluation
errors propagate. -/
def first_failing_hard (entity_state features : Value) :
    List HardRequirement → Except EvalErr (Option HardRequirement)
  | [] => .ok none
  | r :: rest => do
      let source := if r.source = "entity" then entity_state else features
      let ok ← requirement_passed source r.field r.op r.value
      if ok then first_failing_hard entity_state features rest else .ok (some r)

/-- The soft-threshold loop of `evaluate_gates` (lines 135-139): every
threshold is evaluated and the passes are counted. -/
def count_soft_passes (entity_state features : Value) :
    List SoftThreshold → Except EvalErr Nat
  | [] => .ok 0
  | t :: rest => do
      let source := if t.source = "entity" then entity_state else features
      let ok ← requirement_passed source t.field t.op t.value
      let n ← count_soft_passes entity_state features rest
      .ok (if ok then n + 1 else n)

/-- The failure-override lookup of `evaluate_gates` (lines 146-148): an
override applies only when the entry is a non-empty string. -/
def override_for (failure_overrides : Value) (gate_id : String) : Option String :=
  match lookupO failure_overrides gate_id with
  | some (.str s) => if s = "" then none else some s
  | _ => none

/-- The audit snapshot attached to every decision (lines 150-157); the deep
copies of the feature/entity mappings are the values themselves under value
semantics. -/
def decision_snapshot (config_version gate_version : String)
    (entity_state features : Value) (now : PyDateTime) (cooldown_active : Bool) : Value :=
  .consO "feature_snapshot" features
    (.consO "entity_snapshot" entity_state
      (.consO "config_version" (.str config_version)
        (.consO "gate_version" (.str gate_version)
          (.consO "timestamp" (.str now.isoformat)
            (.consO "cooldown_active" (.bool cooldown_active) .nilO)))))

/-- Lines 116-148 of `evaluate_gates`: the per-gate local variables
`(cooldown_active, passed, reason, failed_requirement_id)` as they stand
when control reaches the snapshot construction at line 150 - cooldown
check, hard-requirement short-circuit, soft-threshold quorum, failure
override. -/
def decision_fields (failure_overrides : Value) (gate : GateConfig)
    (entity_state features : Value) (now : PyDateTime) :
    Except EvalErr (Bool × Bool × Option String × Option String) := do
  let cooldown_active ← check_cooldown gate entity_state now
  let hard ←
    if cooldown_active then
      pure (false, (none : Option String), (some "cooldown_active" : Option String))
    else do
      match ← first_failing_hard entity_state features gate.hard_requirements with
      | none => pure (true, none, none)
      | some r =>
          pure (false, some r.requirement_id,
            some ((gate.failure_taxonomy.lookup r.requirement_id).getD "hard_requirement_failed"))
  let passed1 := hard.1
  let failed_requirement_id := hard.2.1
  let reason1 := hard.2.2
  let soft ←
    if passed1 && !gate.soft_thresholds.isEmpty then do
      let soft_passes ← count_soft_passes entity_state features gate.soft_thresholds
      let needed : Int := gate.min_soft_passed.getD (gate.soft_thresholds.length : Int)
      if (soft_passes : Int) < needed then
        pure (false, (some "soft_threshold_failed" : Option String))
      else pure (true, reason1)
    else pure (passed1, reason1)
  let passed := soft.1
  let reason2 := soft.2
  let reason :=
    if !passed then
      match override_for failure_overrides gate.gate_id with
      | some s => some s
      | none => reason2
    else reason2
  .ok (cooldown_active, passed, reason, failed_requirement_id)

/-- The per-gate body of `evaluate_gates` (lines 116-185), for a gate that
already passed the match filter.  After the locals of `decision_fields`
the source builds the audit snapshot (lines 150-157) and the
`TransitionAttempted` record (lines 159-168, all eight fields passed), and
then calls `GateDecision(...)` (lines 170-184) - a call that omits the
required `cooldown_scope`/`cooldown_scope_key` arguments of the dataclass
and therefore raises `TypeError` instead of producing a decision. -/
def evaluate_gate (config_version : String) (failure_overrides : Value)
    (gate : GateConfig) (entity_state features : Value) (now : PyDateTime) :
    Except EvalErr GateDecision := do
  let fields ← decision_fields failure_overrides gate entity_state features now
  let _snapshot := decision_snapshot config_version gate.version entity_state features now fields.1
  let _transition_attempted : TransitionAttempted :=
    { gate_id := gate.gate_id, from_state := gate.from_state, to_state := gate.to_state,
      passed := fields.2.1, timestamp := now, reason := fields.2.2.1,
      failed_requirement_id := fields.2.2.2, snapshot := _snapshot }
  .error .typeErrorDecision

/-- The `failure_overrides` mapping read once at the top of
`evaluate_gates` (lines 108-110): a non-mapping value degrades to `\x7b\x7d`. -/
def effective_overrides (entity_state : Value) : Value :=
  let fo := (lookupO entity_state "failure_overrides").getD .null
  if isMapping fo then fo else .nilO

/-- The gate loop of `evaluate_gates` (lines 112-185): unmatched gates are
skipped entirely (no decision at all), matched gates contribute their
decision in configuration order; the first evaluation error aborts the
call. -/
def eval_gates_loop (config_version : String) (failure_overrides : Value)
    (entity_state features : Value) (now : PyDateTime) :
    List GateConfig → Except EvalErr (List GateDecision)
  | [] => .ok []
  | g :: rest =>
      if matches_state g entity_state then do
        let d ← evaluate_gate config_version failure_overrides g entity_state features now
        let ds ← eval_gates_loop config_version failure_overrides entity_state features now rest
        .ok (d :: ds)
      else eval_gates_loop config_version failure_overrides entity_state features now rest

/-- `evaluator.evaluate_gates`. -/
def evaluate_gates (config : StateMachineConfig) (entity_state features : Value)
    (now : PyDateTime) : Except EvalErr (List GateDecision) :=
  eval_gates_loop config.config_version (effective_overrides entity_state)
    entity_state features now config.gates

/-- Stable insertion used to model Python's stable `list.sort`: the new
element goes in front of the first element it compares `le` to, so elements
with equal keys keep their original relative order. -/
def insertSorted (le : α → α → Bool) (x : α) : List α → List α
  | [] => [x]
  | y :: ys => if le x y then x :: y :: ys else y :: insertSorted le x ys

/-- Model of Python's stable sort (`list.sort(key=...)` / `sorted`): for a
total-preorder comparison the stable result is unique, so stable insertion
sort computes exactly what CPython's stable mergesort returns. -/
def pySort (le : α → α → Bool) : List α → List α
  | [] => []
  | x :: xs => insertSorted le x (pySort le xs)

/-- Errors raised by `applier.apply_decisions` (`ValueError`s; the
constructors stand for the exact Python message strings). -/
inductive ApplyErr where
  | attemptsNotList
  | appliedNotList
  | cooldownsNotObject
  | entityIdRequired
  deriving Repr, DecidableEq

/-- `schemas.schemas_available()`: the optional external `metaspn_schemas`
backend (an out-of-scope collaborator, spec section 6) is absent in this
model, so the import probe reports `false`. -/
def schemas_available : Bool := false

/-- Render an `Option String` field the way the Python records store it
(`None` or the string itself). -/
def optStr : Option String → Value
  | some s => .str s
  | none => .null

/-- `dict.setdefault(key, default)`: returns the stored value and (when the
key was absent) the mapping extended with the default at the end. -/
def setdefaultO (o : Value) (key : String) (d : Value) : Value × Value :=
  match lookupO o key with
  | some v => (o, v)
  | none => (setO o key d, d)

/-- The compact attempt record appended to `gate_attempts` for every
decision (`applier.py` lines 34-45). -/
def attempt_record (d : GateDecision) : Value :=
  let a := d.transition_attempted
  .consO "gate_id" (.str a.gate_id)
    (.consO "from" (.str a.from_state)
      (.consO "to" (.str a.to_state)
        (.consO "passed" (.bool a.passed)
          (.consO "reason" (optStr a.reason)
            (.consO "failed_requirement_id" (optStr a.failed_requirement_id)
              (.consO "timestamp" (.str a.timestamp.isoformat)
                (.consO "snapshot" a.snapshot .nilO)))))))

/-- The `TransitionApplied` record appended to `transitions_applied` for a
passing decision (`applier.py` lines 50-67). -/
def applied_record (d : GateDecision) (caused_by : Option String) : Value :=
  .consO "gate_id" (.str d.gate_id)
    (.consO "from" (.str d.from_state)
      (.consO "to" (.str d.to_state)
        (.consO "caused_by" (optStr caused_by)
          (.consO "timestamp" (.str d.transition_attempted.timestamp.isoformat)
            (.consO "snapshot" d.transition_attempted.snapshot .nilO)))))

/-- The work-item emission for one enqueued task of a passing decision
(`applier.py` lines 70-80). -/
def base_emission (d : GateDecision) (task : String) (entity_id : Value)
    (caused_by : Option String) : Value :=
  .consO "kind" (.str "task_enqueued")
    (.consO "task_id" (.str task)
      (.consO "gate_id" (.str d.gate_id)
        (.consO "gate_version" (.str d.gate_version)
          (.consO "entity_id" entity_id
            (.consO "from_state" (.str d.from_state)
              (.consO "to_state" (.str d.to_state)
                (.consO "caused_by" (optStr caused_by)
                  (.consO "timestamp" (.str d.transition_attempted.timestamp.isoformat) .nilO))))))))

/-- One emission including the optional schema envelope (`applier.py` lines
81-96): with the external backend absent, `build_task_and_emission` would
return `None`, so no `schema` key is ever attached; the `entity_id`
requirement check still runs when envelopes are requested. -/
def build_emission (use_schema_envelopes : Bool) (d : GateDecision) (task : String)
    (entity_id : Value) (caused_by : Option String) : Except ApplyErr Value :=
  let base := base_emission d task entity_id caused_by
  if use_schema_envelopes && schemas_available then
    match entity_id with
    | .str s => if s = "" then .error .entityIdRequired else .ok base
    | _ => .error .entityIdRequired
  else .ok base

/-- The emission loop of a passing decision (`applier.py` lines 69-96): one
emission per task in `enqueue_tasks_on_pass`, in order. -/
def collect_emissions (use_schema_envelopes : Bool) (d : GateDecision) (entity_id : Value)
    (caused_by : Option String) : List String → Except ApplyErr (List Value)
  | [] => .ok []
  | task :: rest => do
      let e ← build_emission use_schema_envelopes d task entity_id caused_by
      let es ← collect_emissions use_schema_envelopes d entity_id caused_by rest
      .ok (e :: es)

/-- The cooldown-update rule of `apply_decisions` (line 98): the gate's
cooldown timestamp is (re)written for a `cooldown_on = "attempt"` decision,
or a `cooldown_on = "pass"` decision that passed. -/
def cooldown_update_cond (d : GateDecision) : Bool :=
  d.cooldown_on = "attempt" || (d.cooldown_on = "pass" && d.passed)

/-- The decision loop of `apply_decisions` (lines 32-99), carried out on
explicit accumulators for the three collections, the pending `state` update
and the emissions. -/
def apply_loop (caused_by : Option String) (use_schema_envelopes : Bool) (entity_id : Value) :
    List GateDecision → Value → Value → Value → Option String → List Value →
    Except ApplyErr (Value × Value × Value × Option String × List Value)
  | [], attempts, applied, cooldowns, state_upd, emissions =>
      .ok (attempts, applied, cooldowns, state_upd, emissions)
  | d :: rest, attempts, applied, cooldowns, state_upd, emissions => do
      let attempts := appendL attempts (attempt_record d)
      let step ←
        if d.passed then do
          let ems ← collect_emissions use_schema_envelopes d entity_id caused_by
            d.enqueue_tasks_on_pass
          pure (appendL applied (applied_record d caused_by), ems, some d.to_state)
        else
          pure (applied, ([] : List Value), state_upd)
      let cooldowns :=
        if cooldown_update_cond d then
          setO cooldowns d.gate_id (.str d.transition_attempted.timestamp.isoformat)
        else cooldowns
      apply_loop caused_by use_schema_envelopes entity_id rest
        attempts step.1 cooldowns step.2.2 (emissions ++ step.2.1)

/-- `applier.apply_decisions`: works on a deep copy of the caller's mapping
(under value semantics the copy is the value itself, so the caller's input
is untouched by construction), installs the three collections via
`setdefault`, fails fast on malformed pre-existing collections, then folds
the decisions and reassembles the new state. -/
def apply_decisions (entity_state : Value) (decisions : List GateDecision)
    (caused_by : Option String) (use_schema_envelopes : Bool) :
    Except ApplyErr (Value × List Value) := do
  let p1 := setdefaultO entity_state "gate_attempts" .nilL
  let p2 := setdefaultO p1.1 "transitions_applied" .nilL
  let p3 := setdefaultO p2.1 "gate_cooldowns" .nilO
  if !isPyList p1.2 then .error .attemptsNotList
  else if !isPyList p2.2 then .error .appliedNotList
  else if !isMapping p3.2 then .error .cooldownsNotObject
  else do
    let entity_id := (lookupO p3.1 "entity_id").getD .null
    let r ← apply_loop caused_by use_schema_envelopes entity_id decisions p1.2 p2.2 p3.2 none []
    let out := setO (setO (setO p3.1 "gate_attempts" r.1) "transitions_applied" r.2.1)
      "gate_cooldowns" r.2.2.1
    let out :=
      match r.2.2.2.1 with
      | some st => setO out "state" (.str st)
      | none => out
    .ok (out, r.2.2.2.2)

/-- Python `str(x)` for the coercions in `config.py` (taxonomy values) and
`learning.py` (attempt/gate ids).  Scalar renderings are exact; float and
container renderings are abbreviated stand-ins (such values never flow into
the verified properties, whose ids and taxonomy entries are strings). -/
def pyStr : Value → String
  | .null => "None"
  | .bool b => if b then "True" else "False"
  | .int n => toString n
  | .float q => toString q.num ++ "/" ++ toString q.den
  | .str s => s
  | .dt d => d.isoformat
  | .nilL => "<list>"
  | .consL _ _ => "<list>"
  | .nilO => "<dict>"
  | .consO _ _ _ => "<dict>"

/-- `config.ConfigError`: structured constructors standing for the message
strings raised by `parse_state_machine_config` and its helpers. -/
inductive ConfigErr where
  | requiredString (key : String)
  | gatesEmpty
  | gateNotObject
  | duplicateGateId (gate_id : String)
  | tasksInvalid
  | taxonomyNotObject
  | cooldownSecondsInvalid
  | cooldownOnInvalid
  | minSoftPassedInvalid
  | minSoftPassedExceeds
  | hardRequirementsNotList
  | hardRequirementEntryNotObject
  | softThresholdsNotList
  | softThresholdEntryNotObject
  | softThresholdValueRequired
  deriving Repr, DecidableEq

/-- `config._require_str`: the key must map to a non-empty string. -/
def require_str (m : Value) (key : String) : Except ConfigErr String :=
  match lookupO m key with
  | some (.str s) => if s = "" then .error (.requiredString key) else .ok s
  | _ => .error (.requiredString key)

/-- Predicate `source` tag of a requirement/threshold entry: absent defaults
to `"features"`; a present non-string value is stored as-is by the Python
dataclass and behaves like any non-`"entity"` tag in the evaluator, so it is
normalised to `""` here (behaviourally equivalent). -/
def parse_source_tag : Option Value → String
  | some (.str s) => s
  | some _ => ""
  | none => "features"

/-- `config._parse_hard_requirements`. -/
def parse_hard_requirements (raw : Value) : Except ConfigErr (List HardRequirement) :=
  match raw with
  | .null => .ok []
  | _ =>
    if !isPyList raw then .error .hardRequirementsNotList
    else
      (listItems raw).mapM (fun item =>
        if !isMapping item then .error .hardRequirementEntryNotObject
        else do
          let rid ← require_str item "requirement_id"
          let fieldPath ← require_str item "field"
          let op ← require_str item "op"
          .ok { requirement_id := rid, field := fieldPath, op := op,
                value := (lookupO item "value").getD .null,
                source := parse_source_tag (lookupO item "source") })

/-- `config._parse_soft_thresholds`: like the hard-requirement parser, but
the `value` key is mandatory (checked before the string fields). -/
def parse_soft_thresholds (raw : Value) : Except ConfigErr (List SoftThreshold) :=
  match raw with
  | .null => .ok []
  | _ =>
    if !isPyList raw then .error .softThresholdsNotList
    else
      (listItems raw).mapM (fun item =>
        if !isMapping item then .error .softThresholdEntryNotObject
        else if (lookupO item "value").isNone then .error .softThresholdValueRequired
        else do
          let tid ← require_str item "threshold_id"
          let fieldPath ← require_str item "field"
          let op ← require_str item "op"
          .ok { threshold_id := tid, field := fieldPath, op := op,
                value := (lookupO item "value").getD .null,
                source := parse_source_tag (lookupO item "source") })

/-- The per-gate body of `parse_state_machine_config` (lines 170-217),
with the checks in the source's evaluation order; `seen` carries the
gate ids collected so far for the duplicate check.  The
`isinstance(x, int)` tests on `cooldown_seconds`/`min_soft_passed` also
accept Python `bool` values (`bool` subclasses `int`), read numerically as
1/0. -/
def parse_gates : List Value → List String → Except ConfigErr (List GateConfig)
  | [], _ => .ok []
  | gate :: rest, seen =>
      if !isMapping gate then .error .gateNotObject
      else do
        let gate_id ← require_str gate "gate_id"
        if gate_id ∈ seen then .error (.duplicateGateId gate_id)
        else do
          let raw_tasks0 := (lookupO gate "enqueue_tasks_on_pass").getD .null
          let raw_tasks := if truthy raw_tasks0 then raw_tasks0 else .nilL
          if !(isPyList raw_tasks &&
               (listItems raw_tasks).all (fun t =>
                 match t with
                 | .str s => s ≠ ""
                 | _ => false)) then .error .tasksInvalid
          else do
            let raw_taxonomy0 := (lookupO gate "failure_taxonomy").getD .null
            let raw_taxonomy := if truthy raw_taxonomy0 then raw_taxonomy0 else .nilO
            if !isMapping raw_taxonomy then .error .taxonomyNotObject
            else do
              let cooldown_seconds ←
                match (lookupO gate "cooldown_seconds").getD (.int 0) with
                | .int n => if n < 0 then .error .cooldownSecondsInvalid else pure n
                | .bool b => pure (if b then (1 : Int) else 0)
                | _ => .error .cooldownSecondsInvalid
              let cooldown_on ←
                match (lookupO gate "cooldown_on").getD (.str "pass") with
                | .str s =>
                    if s = "pass" ∨ s = "attempt" then pure s else .error .cooldownOnInvalid
                | _ => .error .cooldownOnInvalid
              let min_soft_passed ←
                match lookupO gate "min_soft_passed" with
                | none => pure (none : Option Int)
                | some .null => pure none
                | some (.int n) =>
                    if n < 0 then .error .minSoftPassedInvalid else pure (some n)
                | some (.bool b) => pure (some (if b then (1 : Int) else 0))
                | some _ => .error .minSoftPassedInvalid
              let version ← require_str gate "version"
              let track :=
                match lookupO gate "track" with
                | some (.str s) => some s
                | _ => none
              let from_state ← require_str gate "from"
              let to_state ← require_str gate "to"
              let hard ← parse_hard_requirements ((lookupO gate "hard_requirements").getD .null)
              let soft ← parse_soft_thresholds ((lookupO gate "soft_thresholds").getD .null)
              let parsed : GateConfig :=
                { gate_id := gate_id, version := version, track := track,
                  from_state := from_state, to_state := to_state,
                  hard_requirements := hard, soft_thresholds := soft,
                  min_soft_passed := min_soft_passed,
                  cooldown_seconds := cooldown_seconds, cooldown_on := cooldown_on,
                  enqueue_tasks_on_pass := (listItems raw_tasks).map pyStr,
                  failure_taxonomy := (objItems raw_taxonomy).map (fun kv => (kv.1, pyStr kv.2)) }
              match min_soft_passed with
              | some n =>
                  if n > (soft.length : Int) then .error .minSoftPassedExceeds
                  else do
                    let others ← parse_gates rest (gate_id :: seen)
                    .ok (parsed :: others)
              | none => do
                  let others ← parse_gates rest (gate_id :: seen)
                  .ok (parsed :: others)

/-- Sort key of the final deterministic gate ordering
(`key=lambda g: (g.track or "", g.from_state, g.gate_id)`). -/
def gate_sort_key (g : GateConfig) : (List Char) ×ₗ ((List Char) ×ₗ (List Char)) :=
  toLex ((g.track.getD "").data, toLex (g.from_state.data, g.gate_id.data))

/-- Boolean comparison backing the stable gate sort. -/
def gate_sort_le (g1 g2 : GateConfig) : Bool :=
  decide (gate_sort_key g1 ≤ gate_sort_key g2)

/-- `config.parse_state_machine_config`.  The optional `metaspn_schemas`
validation pass (an external collaborator, spec section 6) is absent in this
model, so the payload is parsed directly. -/
def parse_state_machine_config (payload : Value) : Except ConfigErr StateMachineConfig := do
  let config_version ← require_str payload "config_version"
  let raw_gates := (lookupO payload "gates").getD .null
  if !(isPyList raw_gates && !(listItems raw_gates).isEmpty) then .error .gatesEmpty
  else do
    let gates ← parse_gates (listItems raw_gates) []
    .ok { config_version := config_version, gates := pySort gate_sort_le gates }

/-- Errors raised by `learning.py` input validation (`ValueError`s). -/
inductive LearnErr where
  | windowNegative
  | minSamplesTooSmall
  deriving Repr, DecidableEq

/-- `learning.AttemptOutcomeEvaluation`. -/
structure AttemptOutcomeEvaluation where
  attempt_id : String
  gate_id : String
  label : String
  success_observed : Bool
  outcomes_count : Nat
  failure_reason : Option String
  attempted_at : PyDateTime
  deriving Repr, DecidableEq

/-- `learning.CalibrationProposal`. -/
structure CalibrationProposal where
  gate_id : String
  recommendation_type : String
  direction : String
  rationale : String
  confidence : Rat
  auto_apply : Bool := false
  deriving Repr, DecidableEq

/-- `learning.classify_failure_reason`: no reason for correct labels, the
taxonomy entry when one applies (an empty taxonomy is falsy, like the Python
`None` default), otherwise the default reason. -/
def classify_failure_reason (label : String) (taxonomy_map : List (String × String))
    (default_reason : String) : Option String :=
  if label = "true_positive" ∨ label = "true_negative" then none
  else
    match (if taxonomy_map.isEmpty then none else taxonomy_map.lookup label) with
    | some r => some r
    | none => some default_reason

/-- Comparison for the outcome normalisation sort (`key=lambda row: row[0]`);
every normalised timestamp is UTC-aware, so datetime order is the instant
order. -/
def outcome_sort_le (a b : PyDateTime × Bool) : Bool :=
  decide (a.1.secs ≤ b.1.secs)

/-- Sort key of the labelled rows: `(gate id, attempt timestamp, attempt
id)`; row timestamps are UTC-aware by construction. -/
def row_sort_key (r : AttemptOutcomeEvaluation) : (List Char) ×ₗ (Int ×ₗ (List Char)) :=
  toLex (r.gate_id.data, toLex (r.attempted_at.secs, r.attempt_id.data))

/-- Boolean comparison backing the stable row sort. -/
def row_sort_le (r1 r2 : AttemptOutcomeEvaluation) : Bool :=
  decide (row_sort_key r1 ≤ row_sort_key r2)

/-- The labelled row `evaluate_attempt_outcomes` builds for one attempt
(lines 69-99), given the normalised outcome list; attempts whose
`attempted_at` is not a `datetime` produce no row. -/
def attempt_row (normalized_outcomes : List (PyDateTime × Bool))
    (outcome_window_seconds : Int) (failure_taxonomy_map : List (String × String))
    (a : Value) : Option AttemptOutcomeEvaluation :=
  match lookupO a "attempted_at" with
  | some (.dt attempted_at) =>
      let attempt_ts := attempted_at.as_utc
      let window_end := attempt_ts.addSeconds outcome_window_seconds
      let in_window := (normalized_outcomes.filter (fun row =>
        decide (attempt_ts.secs ≤ row.1.secs) && decide (row.1.secs ≤ window_end.secs))).map Prod.snd
      let success_observed := in_window.any id
      let passed := truthy ((lookupO a "passed").getD .null)
      let label :=
        if passed && success_observed then "true_positive"
        else if passed && !success_observed then "moved_too_early"
        else if !passed && success_observed then "false_negative"
        else "true_negative"
      some { attempt_id := pyStr ((lookupO a "attempt_id").getD (.str "")),
             gate_id := pyStr ((lookupO a "gate_id").getD (.str "")),
             label := label, success_observed := success_observed,
             outcomes_count := in_window.length,
             failure_reason := classify_failure_reason label failure_taxonomy_map "unknown_failure",
             attempted_at := attempt_ts }
  | _ => none

/-- The outcome normalisation of `evaluate_attempt_outcomes` (lines 59-64):
keep events with a `datetime` timestamp, normalised to UTC, with `success`
coerced by truthiness. -/
def normalize_outcomes (outcomes : List Value) : List (PyDateTime × Bool) :=
  outcomes.filterMap (fun o =>
    match lookupO o "timestamp" with
    | some (.dt ts) => some (ts.as_utc, truthy ((lookupO o "success").getD .null))
    | _ => none)

/-- `learning.evaluate_attempt_outcomes`: reject a negative window, keep
outcomes with a `datetime` timestamp (coercing `success` by truthiness) and
sort them by timestamp, label every attempt with a `datetime`
`attempted_at` against the closed window
`[attempt_ts, attempt_ts + outcome_window_seconds]`, and sort the rows by
`(gate id, attempt timestamp, attempt id)`. -/
def evaluate_attempt_outcomes (attempts outcomes : List Value)
    (outcome_window_seconds : Int) (failure_taxonomy_map : List (String × String)) :
    Except LearnErr (List AttemptOutcomeEvaluation) :=
  if outcome_window_seconds < 0 then .error .windowNegative
  else
    let normalized_outcomes := pySort outcome_sort_le (normalize_outcomes outcomes)
    .ok (pySort row_sort_le
      (attempts.filterMap (attempt_row normalized_outcomes outcome_window_seconds failure_taxonomy_map)))

/-- Round `p / q` (with `q > 0`) to the nearest integer, ties to even:
the rounding mode of Python's `round`. -/
def round_half_even (p q : Int) : Int :=
  let n := p / q
  let r := p % q
  if 2 * r < q then n
  else if 2 * r > q then n + 1
  else if n % 2 = 0 then n else n + 1

/-- Python `round(x, 4)` on the exact rational value: scale by `10^4` and
round half-to-even.  (CPython rounds the binary double nearest to `x`; on
the sample rates arising here the exact rational rounding agrees.) -/
def round4 (x : Rat) : Rat :=
  mkRat (round_half_even (x.num * 10000) (x.den : Int)) 10000

/-- Sort key of the proposal list:
`(gate id, recommendation type, direction, rationale)`. -/
def proposal_sort_key (p : CalibrationProposal) :
    (List Char) ×ₗ ((List Char) ×ₗ ((List Char) ×ₗ (List Char))) :=
  toLex (p.gate_id.data, toLex (p.recommendation_type.data,
    toLex (p.direction.data, p.rationale.data)))

/-- Boolean comparison backing the stable proposal sort. -/
def proposal_sort_le (p1 p2 : CalibrationProposal) : Bool :=
  decide (proposal_sort_key p1 ≤ proposal_sort_key p2)

/-- Comparison for `sorted(by_gate)` over gate ids. -/
def gate_id_le (a b : String) : Bool :=
  decide (a.data ≤ b.data)

/-- Keep-first deduplication backing the `defaultdict` key collection of
`generate_calibration_proposals`: the grouping dict's keys are the gate ids
in first-appearance order, each exactly once. -/
def dedup_first_aux (seen : List String) : List String → List String
  | [] => []
  | a :: rest =>
      if a ∈ seen then dedup_first_aux seen rest
      else a :: dedup_first_aux (a :: seen) rest

/-- The distinct gate ids of the attempt evaluations, first occurrences
kept in order. -/
def dedup_first (l : List String) : List String :=
  dedup_first_aux [] l

/-- The per-gate sample group of `generate_calibration_proposals`
(`by_gate[gate_id]`): the evaluations with this gate id, in input order. -/
def gate_samples (evaluations : List AttemptOutcomeEvaluation) (gate_id : String) :
    List AttemptOutcomeEvaluation :=
  evaluations.filter (fun ev => ev.gate_id == gate_id)

/-- `fp_rate = false_positive / total` as the exact rational (`mkRat` is
division on rationals). -/
def gate_fp_rate (evaluations : List AttemptOutcomeEvaluation) (gate_id : String) : Rat :=
  mkRat ((gate_samples evaluations gate_id).countP (fun s => s.label == "moved_too_early"))
    (gate_samples evaluations gate_id).length

/-- `fn_rate = false_negative / total` as the exact rational. -/
def gate_fn_rate (evaluations : List AttemptOutcomeEvaluation) (gate_id : String) : Rat :=
  mkRat ((gate_samples evaluations gate_id).countP (fun s => s.label == "false_negative"))
    (gate_samples evaluations gate_id).length

/-- The `threshold_adjustment`/`increase` proposal emitted on a high
`moved_too_early` rate (`learning.py` lines 131-140). -/
def fp_threshold_proposal (gate_id : String) (confidence : Rat) : CalibrationProposal :=
  { gate_id := gate_id, recommendation_type := "threshold_adjustment",
    direction := "increase", rationale := "high moved_too_early rate",
    confidence := confidence, auto_apply := false }

/-- The `cooldown_adjustment`/`increase` proposal emitted on a high
`moved_too_early` rate (lines 141-150). -/
def fp_cooldown_proposal (gate_id : String) (confidence : Rat) : CalibrationProposal :=
  { gate_id := gate_id, recommendation_type := "cooldown_adjustment",
    direction := "increase", rationale := "repeated early transitions in window",
    confidence := confidence, auto_apply := false }

/-- The `threshold_adjustment`/`decrease` proposal emitted on a high
`false_negative` rate (lines 152-162). -/
def fn_threshold_proposal (gate_id : String) (confidence : Rat) : CalibrationProposal :=
  { gate_id := gate_id, recommendation_type := "threshold_adjustment",
    direction := "decrease", rationale := "high false_negative rate",
    confidence := confidence, auto_apply := false }

/-- The proposals one gate contributes (`learning.py` lines 119-162); the
Python float literal threshold `0.30` is the rational `3 / 10`.  (CPython
compares the binary doubles nearest to these rationals; on sample-count
rates the comparisons agree.) -/
def proposals_for_gate (evaluations : List AttemptOutcomeEvaluation) (min_samples : Int)
    (gate_id : String) : List CalibrationProposal :=
  if ((gate_samples evaluations gate_id).length : Int) < min_samples then []
  else
    (if gate_fp_rate evaluations gate_id ≥ mkRat 3 10 then
      [fp_threshold_proposal gate_id (round4 (gate_fp_rate evaluations gate_id)),
       fp_cooldown_proposal gate_id (round4 (gate_fp_rate evaluations gate_id))]
     else []) ++
    (if gate_fn_rate evaluations gate_id ≥ mkRat 3 10 then
      [fn_threshold_proposal gate_id (round4 (gate_fn_rate evaluations gate_id))]
     else [])

/-- `learning.generate_calibration_proposals`: group by gate id (the
`defaultdict` keys in first-appearance order, deduplicated), visit gates in
sorted order, emit per-gate proposals, and sort the result by
`(gate id, recommendation type, direction, rationale)`. -/
def generate_calibration_proposals (evaluations : List AttemptOutcomeEvaluation)
    (min_samples : Int) : Except LearnErr (List CalibrationProposal) :=
  if min_samples < 1 then .error .minSamplesTooSmall
  else
    let gate_ids := pySort gate_id_le (dedup_first (evaluations.map (fun ev => ev.gate_id)))
    .ok (pySort proposal_sort_le
      (gate_ids.flatMap (proposals_for_gate evaluations min_samples)))

/-- C1 input: the single `SEEN` to `OBSERVED` gate with one hard requirement
`profile.confidence >= 0.8` and `enqueue_tasks_on_pass = [enrich_profile]`. -/
def c1Gate : GateConfig :=
  { gate_id := "m0.seen_to_observed", version := "1", track := none,
    from_state := "SEEN", to_state := "OBSERVED",
    hard_requirements :=
      [{ requirement_id := "hr.confidence", field := "profile.confidence",
         op := "gte", value := .float (mkRat 8 10) }],
    enqueue_tasks_on_pass := ["enrich_profile"] }

/-- C1 input: the one-gate configuration. -/
def c1Config : StateMachineConfig :=
  { config_version := "demo.v1", gates := [c1Gate] }

/-- C1 input: the entity state `\x7bstate: "SEEN"\x7d`. -/
def c1Entity : Value := .consO "state" (.str "SEEN") .nilO

/-- C1 input: the feature snapshot `\x7bprofile: \x7bconfidence: 0.9\x7d\x7d`. -/
def c1Features : Value :=
  .consO "profile" (.consO "confidence" (.float (mkRat 9 10)) .nilO) .nilO

/-- C10 input: gate with a one-hour cooldown. -/
def c10Gate : GateConfig :=
  { gate_id := "g.cool", version := "1", track := none,
    from_state := "S", to_state := "T", cooldown_seconds := 3600 }

/-- C10 input: matching entity whose cooldown entry for the
gate is the string `"not-a-date"`, which is not ISO-formatted. -/
def c10Entity : Value :=
  .consO "state" (.str "S")
    (.consO "gate_cooldowns" (.consO "g.cool" (.str "not-a-date") .nilO) .nilO)

/-- C10 amended witness input: the entity's `gate_cooldowns` is the integer
`7` (present but not a mapping). -/
def c10wEntity : Value :=
  .consO "state" (.str "S") (.consO "gate_cooldowns" (.int 7) .nilO)

/-- The comparison operators `evaluator._compare` and the
`exists`/`not_exists` presence checks accept (spec section 3). -/
def supported_ops : List String :=
  ["eq", "ne", "gt", "gte", "lt", "lte", "in", "not_in", "exists", "not_exists"]

/-- C5 counterexample input: a structurally valid configuration whose one
hard requirement uses the unsupported operator `"between"`. -/
def c5Payload : Value :=
  .consO "config_version" (.str "x")
    (.consO "gates" (.consL
      (.consO "gate_id" (.str "a") (.consO "version" (.str "1")
        (.consO "from" (.str "s1") (.consO "to" (.str "s2")
          (.consO "hard_requirements" (.consL
            (.consO "requirement_id" (.str "r1") (.consO "field" (.str "x.y")
              (.consO "op" (.str "between") (.consO "value" (.int 3) .nilO)))) .nilL)
            .nilO))))) .nilL) .nilO)

/-- C2 inputs: a matching, cooldown-blocked gate whose entity
state also supplies a failure override for the gate. -/
def c2Gate : GateConfig :=
  { gate_id := "g.qualify", version := "1", track := none,
    from_state := "S", to_state := "T", cooldown_seconds := 3600 }

/-- C2 override entity: in-window cooldown entry plus a failure
override `"manual_hold"`. -/
def c2Entity : Value :=
  .consO "state" (.str "S")
    (.consO "gate_cooldowns" (.consO "g.qualify" (.dt ⟨-300, true⟩) .nilO)
      (.consO "failure_overrides" (.consO "g.qualify" (.str "manual_hold") .nilO) .nilO))

/-- C2 witness configuration (no overrides anywhere). -/
def c2wConfig : StateMachineConfig := { config_version := "v", gates := [c2Gate] }

/-- C2 witness entity: in-window datetime cooldown entry, no overrides. -/
def c2wEntity : Value :=
  .consO "state" (.str "S")
    (.consO "gate_cooldowns" (.consO "g.qualify" (.dt ⟨-300, true⟩) .nilO) .nilO)

/-- C3 input gate: its only hard requirement fails and has a
taxonomy entry. -/
def c3Gate : GateConfig :=
  { gate_id := "g.c3", version := "1", track := none, from_state := "S", to_state := "T",
    hard_requirements :=
      [{ requirement_id := "r1", field := "x.ok", op := "gte", value := .int 10 }],
    failure_taxonomy := [("r1", "insufficient")] }

/-- C3 input entity: supplies a failure override for the gate. -/
def c3Entity : Value :=
  .consO "state" (.str "S")
    (.consO "failure_overrides" (.consO "g.c3" (.str "manual_hold") .nilO) .nilO)

/-- C3 input features: resolve the requirement path to `1`, which
fails `gte 10`. -/
def c3Features : Value := .consO "x" (.consO "ok" (.int 1) .nilO) .nilO

/-- C3 witness requirement: passes (`exists` on a present path). -/
def c3wR1 : HardRequirement :=
  { requirement_id := "r1", field := "x", op := "exists" }

/-- C3 witness requirement: fails (`gte 10` against the value `1`). -/
def c3wR2 : HardRequirement :=
  { requirement_id := "r2", field := "x.ok", op := "gte", value := .int 10 }

/-- C3 witness gate: a passing requirement followed by a failing one and a
third requirement that is never reached; no taxonomy entry, so the default
reason applies. -/
def c3wGate : GateConfig :=
  { gate_id := "g.c3w", version := "1", track := none, from_state := "S", to_state := "T",
    hard_requirements :=
      [c3wR1, c3wR2,
       { requirement_id := "r3", field := "x.ok", op := "lt", value := .int 5 }] }

/-- C3 witness features. -/
def c3wFeatures : Value := .consO "x" (.consO "ok" (.int 1) .nilO) .nilO

/-- C4 input gate: one failing soft threshold, `min_soft_passed`
unset (so all thresholds must pass). -/
def c4Gate : GateConfig :=
  { gate_id := "g.c4", version := "1", track := none, from_state := "S", to_state := "T",
    soft_thresholds :=
      [{ threshold_id := "t1", field := "score", op := "gte", value := .float (mkRat 7 10) }] }

/-- C4 input entity: supplies a failure override for the gate. -/
def c4Entity : Value :=
  .consO "state" (.str "S")
    (.consO "failure_overrides" (.consO "g.c4" (.str "manual_hold") .nilO) .nilO)

/-- C4 witness thresholds: the first is satisfied, the second is not. -/
def c4wT1 : SoftThreshold :=
  { threshold_id := "t1", field := "s.a", op := "gte", value := .float (mkRat 7 10) }

/-- C4 witness threshold that fails against the witness features. -/
def c4wT2 : SoftThreshold :=
  { threshold_id := "t2", field := "s.b", op := "gte", value := .float (mkRat 7 10) }

/-- C4 witness gate: two thresholds, `min_soft_passed` unset, so both must
pass; only one does. -/
def c4wGate : GateConfig :=
  { gate_id := "g.c4w", version := "1", track := none, from_state := "S", to_state := "T",
    soft_thresholds := [c4wT1, c4wT2] }

/-- C4 witness features: `s.a = 0.9`, `s.b = 0.1`. -/
def c4wFeatures : Value :=
  .consO "s" (.consO "a" (.float (mkRat 9 10)) (.consO "b" (.float (mkRat 1 10)) .nilO)) .nilO

/-- C4 witness gate whose only threshold uses an unsupported operator on a
resolved path, so the soft stage raises. -/
def c4eGate : GateConfig :=
  { gate_id := "g.c4e", version := "1", track := none, from_state := "S", to_state := "T",
    soft_thresholds :=
      [{ threshold_id := "te", field := "s.a", op := "between", value := .int 3 }] }

/-- C7 counterexample decision: `cooldown_on = "attempt"` on gate `g`, so it
updates the gate's cooldown timestamp. -/
def c7d1 : GateDecision :=
  { gate_id := "g", gate_version := "1", track := none, from_state := "S", to_state := "T",
    passed := false, reason := none, failed_requirement_id := none, cooldown_active := false,
    cooldown_on := "attempt", cooldown_scope := "entity", cooldown_scope_key := none,
    enqueue_tasks_on_pass := [],
    transition_attempted :=
      { gate_id := "g", from_state := "S", to_state := "T", passed := false,
        timestamp := ⟨100, true⟩, reason := none, failed_requirement_id := none,
        snapshot := .nilO } }

/-- C7 counterexample decision: same gate `g`, failing `cooldown_on = "pass"`
decision, so it does not update the cooldown itself. -/
def c7d2 : GateDecision :=
  { gate_id := "g", gate_version := "1", track := none, from_state := "S", to_state := "T",
    passed := false, reason := none, failed_requirement_id := none, cooldown_active := false,
    cooldown_on := "pass", cooldown_scope := "entity", cooldown_scope_key := none,
    enqueue_tasks_on_pass := [],
    transition_attempted :=
      { gate_id := "g", from_state := "S", to_state := "T", passed := false,
        timestamp := ⟨200, true⟩, reason := none, failed_requirement_id := none,
        snapshot := .nilO } }

/-- C7 witness decision on a distinct gate `h`: failing `"pass"` decision,
leaving the pre-existing cooldown entry for `h` untouched. -/
def c7w2 : GateDecision :=
  { gate_id := "h", gate_version := "1", track := none, from_state := "S", to_state := "T",
    passed := false, reason := none, failed_requirement_id := none, cooldown_active := false,
    cooldown_on := "pass", cooldown_scope := "entity", cooldown_scope_key := none,
    enqueue_tasks_on_pass := [],
    transition_attempted :=
      { gate_id := "h", from_state := "S", to_state := "T", passed := false,
        timestamp := ⟨200, true⟩, reason := none, failed_requirement_id := none,
        snapshot := .nilO } }

/-- C7 witness entity: a pre-existing cooldown entry for gate `h`. -/
def c7wEs : Value :=
  .consO "gate_cooldowns" (.consO "h" (.str "7") .nilO) .nilO

/-- Claim-side labelling rule of C8, phrased directly over the raw outcome
events: an attempt with timestamp `t` and pass flag is `true_positive` when
it passed and some outcome event with a truthy `success` has a timestamp in
the closed interval from `t` to `t + outcome_window_seconds`,
`moved_too_early` when it passed and no such success exists,
`false_negative` when it was blocked and such an in-window success exists,
and `true_negative` otherwise.  To be compared with the implementation
`attempt_row`, which consults the pre-sorted normalised outcome list. -/
def attempt_row_spec (outcomes : List Value) (outcome_window_seconds : Int)
    (failure_taxonomy_map : List (String × String)) (a : Value) :
    Option AttemptOutcomeEvaluation :=
  match lookupO a "attempted_at" with
  | some (.dt attempted_at) =>
      let attempt_ts := attempted_at.as_utc
      let window_end := attempt_ts.addSeconds outcome_window_seconds
      let in_window := ((normalize_outcomes outcomes).filter (fun row =>
        decide (attempt_ts.secs ≤ row.1.secs) && decide (row.1.secs ≤ window_end.secs))).map
        Prod.snd
      let success_observed := in_window.any id
      let passed := truthy ((lookupO a "passed").getD .null)
      let label :=
        if passed && success_observed then "true_positive"
        else if passed && !success_observed then "moved_too_early"
        else if !passed && success_observed then "false_negative"
        else "true_negative"
      some { attempt_id := pyStr ((lookupO a "attempt_id").getD (.str "")),
             gate_id := pyStr ((lookupO a "gate_id").getD (.str "")),
             label := label, success_observed := success_observed,
             outcomes_count := in_window.length,
             failure_reason := classify_failure_reason label failure_taxonomy_map "unknown_failure",
             attempted_at := attempt_ts }
  | _ => none

/-- C8 witness inputs: one passing attempt with no in-window outcome, one
blocked attempt with an in-window success (out of order, to exercise the
sort). -/
def c8Attempts : List Value :=
  [.consO "attempt_id" (.str "a2") (.consO "gate_id" (.str "g1")
     (.consO "attempted_at" (.dt ⟨60, true⟩) (.consO "passed" (.bool false) .nilO))),
   .consO "attempt_id" (.str "a1") (.consO "gate_id" (.str "g1")
     (.consO "attempted_at" (.dt ⟨0, true⟩) (.consO "passed" (.bool true) .nilO)))]

/-- C8 witness outcome events. -/
def c8Outcomes : List Value :=
  [.consO "timestamp" (.dt ⟨20, true⟩) (.consO "success" (.bool false) .nilO),
   .consO "timestamp" (.dt ⟨75, true⟩) (.consO "success" (.bool true) .nilO)]

/-- C9 witness row constructor: a labelled attempt on gate `g1`. -/
def c9ev (id lbl : String) (t : Int) : AttemptOutcomeEvaluation :=
  { attempt_id := id, gate_id := "g1", label := lbl, success_observed := false,
    outcomes_count := 0, failure_reason := none, attempted_at := ⟨t, true⟩ }

/-- C9 witness evaluations: 2 of 4 `moved_too_early` (fp rate 0.5), 1 of 4
`false_negative` (fn rate 0.25). -/
def c9Evs : List AttemptOutcomeEvaluation :=
  [c9ev "a1" "moved_too_early" 0, c9ev "a2" "moved_too_early" 60,
   c9ev "a3" "true_negative" 120, c9ev "a4" "false_negative" 180]

theorem perm_insertSorted (le : α → α → Bool) (x : α) (l : List α) :
    List.Perm (insertSorted le x l) (x :: l) := by
  induction l with
  | nil => simp [insertSorted]
  | cons y ys ih =>
      by_cases h : le x y = true
      · simp [insertSorted, h]
      · simp only [insertSorted, h]
        simp only [Bool.false_eq_true, if_false]
        exact List.Perm.trans (ih.cons y) (List.Perm.swap x y ys)

theorem perm_pySort (le : α → α → Bool) (l : List α) : List.Perm (pySort le l) l := by
  induction l with
  | nil => simp [pySort]
  | cons x xs ih =>
      exact List.Perm.trans (perm_insertSorted le x (pySort le xs)) (ih.cons x)

theorem pairwise_insertSorted (le : α → α → Bool)
    (htrans : ∀ a b c, le a b = true → le b c = true → le a c = true)
    (htot : ∀ a b, le a b = true ∨ le b a = true)
    (x : α) (l : List α) (h : l.Pairwise (le · · = true)) :
    (insertSorted le x l).Pairwise (le · · = true) := by
  induction l with
  | nil => simp [insertSorted]
  | cons y ys ih =>
      rcases List.pairwise_cons.mp h with ⟨hy, hys⟩
      by_cases hxy : le x y = true
      · simp only [insertSorted, hxy, if_true]
        refine List.pairwise_cons.mpr ⟨?_, h⟩
        intro z hz
        rcases List.mem_cons.mp hz with hz | hz
        · exact hz ▸ hxy
        · exact htrans x y z hxy (hy z hz)
      · simp only [insertSorted, hxy]
        simp only [Bool.false_eq_true, if_false]
        refine List.pairwise_cons.mpr ⟨?_, ih hys⟩
        intro z hz
        have hz' := (perm_insertSorted le x ys).mem_iff.mp hz
        rcases List.mem_cons.mp hz' with hz' | hz'
        · subst hz'
          rcases htot z y with hc | hc
          · exact absurd hc hxy
          · exact hc
        · exact hy z hz'

theorem pairwise_pySort (le : α → α → Bool)
    (htrans : ∀ a b c, le a b = true → le b c = true → le a c = true)
    (htot : ∀ a b, le a b = true ∨ le b a = true)
    (l : List α) : (pySort le l).Pairwise (le · · = true) := by
  induction l with
  | nil => simp [pySort]
  | cons x xs ih => exact pairwise_insertSorted le htrans htot x (pySort le xs) ih

/-- C1: the claimed end-to-end scenario cannot run.  With the
configuration, entity state and features above and any timestamp, the gate
passes the match filter and its per-gate locals come out as the claim
intends (no cooldown, `passed = True`, no reason, no failed requirement),
but `evaluate_gates` then raises `TypeError` at the `GateDecision(...)`
construction (evaluator.py lines 170-184 omit the required
`cooldown_scope`/`cooldown_scope_key` arguments declared at models.py
lines 76-77), so the call returns no decision list at all and
`apply_decisions` is never reached. -/
theorem c1_end_to_end_scenario (now : PyDateTime) :
    matches_state c1Gate c1Entity = true ∧
    decision_fields (effective_overrides c1Entity) c1Gate c1Entity c1Features now =
      .ok (false, true, none, none) ∧
    evaluate_gates c1Config c1Entity c1Features now = .error .typeErrorDecision := by
  exact ⟨rfl, rfl, rfl⟩

theorem exceptBind_ok {ε α β : Type} (a : α) (f : α → Except ε β) :
    (Except.ok a >>= f) = f a := rfl

theorem exceptBind_error {ε α β : Type} (e : ε) (f : α → Except ε β) :
    ((Except.error e : Except ε α) >>= f) = Except.error e := rfl

theorem exceptPure {ε α : Type} (a : α) : (pure a : Except ε α) = Except.ok a := rfl

theorem lookupO_setO_self (o : Value) (key : String) (v : Value) :
    lookupO (setO o key v) key = some v := by
  induction o with
  | consO k w rest ihw ihrest =>
      by_cases h : k = key
      · simp [setO, h, lookupO]
      · simp [setO, h, lookupO, ihrest]
  | _ => simp [setO, lookupO]

theorem lookupO_setO_ne (o : Value) (key k : String) (v : Value) (h : k ≠ key) :
    lookupO (setO o key v) k = lookupO o k := by
  induction o with
  | consO k2 w rest ihw ihrest =>
      by_cases h2 : k2 = key
      · have hne : ¬ (key = k) := fun hc => h hc.symm
        simp [setO, h2, lookupO, hne]
      · simp [setO, h2, lookupO, ihrest]
  | _ => simp [setO, lookupO, Ne.symm h]

theorem listItems_appendL (l x : Value) :
    listItems (appendL l x) = listItems l ++ [x] := by
  induction l with
  | consL a rest iha ihrest => simp [appendL, listItems, ihrest]
  | _ => simp [appendL, listItems]

theorem evaluate_gate_fields_ok (cv : String) (fo : Value) (g : GateConfig)
    (es fs : Value) (now : PyDateTime) (t : Bool × Bool × Option String × Option String)
    (h : decision_fields fo g es fs now = .ok t) :
    evaluate_gate cv fo g es fs now = .error .typeErrorDecision := by
  simp only [evaluate_gate, h, exceptBind_ok]

theorem evaluate_gate_fields_error (cv : String) (fo : Value) (g : GateConfig)
    (es fs : Value) (now : PyDateTime) (e : EvalErr)
    (h : decision_fields fo g es fs now = .error e) :
    evaluate_gate cv fo g es fs now = .error e := by
  simp only [evaluate_gate, h, exceptBind_error]

theorem evaluate_gate_never_ok (cv : String) (fo : Value) (g : GateConfig)
    (es fs : Value) (now : PyDateTime) (d : GateDecision) :
    evaluate_gate cv fo g es fs now ≠ .ok d := by
  cases h : decision_fields fo g es fs now with
  | ok t =>
      rw [evaluate_gate_fields_ok cv fo g es fs now t h]
      intro hc; cases hc
  | error e =>
      rw [evaluate_gate_fields_error cv fo g es fs now e h]
      intro hc; cases hc

theorem eval_gates_loop_no_ok (cv : String) (fo es fs : Value) (now : PyDateTime)
    (g : GateConfig) (hm : matches_state g es = true) :
    ∀ gates : List GateConfig, g ∈ gates →
      ∀ ds, eval_gates_loop cv fo es fs now gates ≠ .ok ds := by
  intro gates
  induction gates with
  | nil => intro hg; cases hg
  | cons g0 rest ih =>
      intro hg ds
      rcases List.mem_cons.mp hg with hg0 | hg0
      · subst hg0
        rw [eval_gates_loop, if_pos hm]
        cases hd : evaluate_gate cv fo g es fs now with
        | ok d => exact absurd hd (evaluate_gate_never_ok cv fo g es fs now d)
        | error e =>
            rw [exceptBind_error]
            intro hc; cases hc
      · rw [eval_gates_loop]
        by_cases hm0 : matches_state g0 es = true
        · rw [if_pos hm0]
          cases hd : evaluate_gate cv fo g0 es fs now with
          | ok d => exact absurd hd (evaluate_gate_never_ok cv fo g0 es fs now d)
          | error e =>
              rw [exceptBind_error]
              intro hc; cases hc
        · rw [if_neg hm0]
          exact ih hg0 ds

theorem setdefaultO_snd (o : Value) (key : String) (d : Value) :
    (setdefaultO o key d).2 = (lookupO o key).getD d := by
  cases h : lookupO o key <;> simp [setdefaultO, h]

theorem setdefaultO_fst_lookup_ne (o : Value) (key : String) (d : Value) (k : String)
    (h : k ≠ key) : lookupO (setdefaultO o key d).1 k = lookupO o k := by
  cases h2 : lookupO o key <;> simp [setdefaultO, h2, lookupO_setO_ne _ _ _ _ h]

theorem apply_err_attempts (es : Value) (ds : List GateDecision) (cb : Option String)
    (use : Bool) (hbad : isPyList ((lookupO es "gate_attempts").getD .nilL) = false) :
    apply_decisions es ds cb use = .error .attemptsNotList := by
  have h1 := setdefaultO_snd es "gate_attempts" .nilL
  simp only [apply_decisions, h1, hbad]
  rfl

theorem apply_err_applied (es : Value) (ds : List GateDecision) (cb : Option String)
    (use : Bool)
    (hatt : isPyList ((lookupO es "gate_attempts").getD .nilL) = true)
    (hbad : isPyList ((lookupO es "transitions_applied").getD .nilL) = false) :
    apply_decisions es ds cb use = .error .appliedNotList := by
  have h1 := setdefaultO_snd es "gate_attempts" .nilL
  have h2a := setdefaultO_fst_lookup_ne es "gate_attempts" .nilL "transitions_applied" (by decide)
  have h2 := setdefaultO_snd (setdefaultO es "gate_attempts" .nilL).1 "transitions_applied" .nilL
  rw [h2a] at h2
  simp only [apply_decisions, h1, h2, hatt, hbad]
  rfl

theorem apply_err_cooldowns (es : Value) (ds : List GateDecision) (cb : Option String)
    (use : Bool)
    (hatt : isPyList ((lookupO es "gate_attempts").getD .nilL) = true)
    (happ : isPyList ((lookupO es "transitions_applied").getD .nilL) = true)
    (hbad : isMapping ((lookupO es "gate_cooldowns").getD .nilO) = false) :
    apply_decisions es ds cb use = .error .cooldownsNotObject := by
  have h1 := setdefaultO_snd es "gate_attempts" .nilL
  have h2a := setdefaultO_fst_lookup_ne es "gate_attempts" .nilL "transitions_applied" (by decide)
  have h2 := setdefaultO_snd (setdefaultO es "gate_attempts" .nilL).1 "transitions_applied" .nilL
  rw [h2a] at h2
  have h3a := setdefaultO_fst_lookup_ne (setdefaultO es "gate_attempts" .nilL).1
    "transitions_applied" .nilL "gate_cooldowns" (by decide)
  have h3b := setdefaultO_fst_lookup_ne es "gate_attempts" .nilL "gate_cooldowns" (by decide)
  have h3 := setdefaultO_snd
    (setdefaultO (setdefaultO es "gate_attempts" .nilL).1 "transitions_applied" .nilL).1
    "gate_cooldowns" .nilO
  rw [h3a, h3b] at h3
  simp only [apply_decisions, h1, h2, h3, hatt, happ, hbad]
  rfl

/-- C6: the applier fails fast whenever a pre-existing `gate_attempts` or
`transitions_applied` value is not a list, or a pre-existing
`gate_cooldowns` value is not a mapping.  The claim's other half - that the
caller's `entity_state` is never mutated - is inherent in this value-
semantics embedding of `deepcopy(dict(entity_state))` (`applier.py` line
18): `apply_decisions` is a pure function of the input value. -/
theorem c6_applier_fail_fast (es : Value) (ds : List GateDecision) (cb : Option String)
    (use : Bool)
    (h : (∃ v, lookupO es "gate_attempts" = some v ∧ isPyList v = false) ∨
         (∃ v, lookupO es "transitions_applied" = some v ∧ isPyList v = false) ∨
         (∃ v, lookupO es "gate_cooldowns" = some v ∧ isMapping v = false)) :
    ∃ e, apply_decisions es ds cb use = .error e := by
  rcases h with ⟨v, hv, hbad⟩ | ⟨v, hv, hbad⟩ | ⟨v, hv, hbad⟩
  · exact ⟨.attemptsNotList, apply_err_attempts es ds cb use (by rw [hv]; exact hbad)⟩
  · cases hatt : isPyList ((lookupO es "gate_attempts").getD .nilL) with
    | false => exact ⟨.attemptsNotList, apply_err_attempts es ds cb use hatt⟩
    | true => exact ⟨.appliedNotList, apply_err_applied es ds cb use hatt (by rw [hv]; exact hbad)⟩
  · cases hatt : isPyList ((lookupO es "gate_attempts").getD .nilL) with
    | false => exact ⟨.attemptsNotList, apply_err_attempts es ds cb use hatt⟩
    | true =>
        cases happ : isPyList ((lookupO es "transitions_applied").getD .nilL) with
        | false => exact ⟨.appliedNotList, apply_err_applied es ds cb use hatt happ⟩
        | true =>
            exact ⟨.cooldownsNotObject,
              apply_err_cooldowns es ds cb use hatt happ (by rw [hv]; exact hbad)⟩

/-- C6 witness: a concrete entity state whose `gate_attempts` is the integer
`3` makes `apply_decisions` raise. -/
theorem c6_applier_fail_fast_witness :
    ∃ e, apply_decisions (.consO "gate_attempts" (.int 3) .nilO) [] none false = .error e :=
  c6_applier_fail_fast (.consO "gate_attempts" (.int 3) .nilO) [] none false
    (Or.inl ⟨.int 3, rfl, rfl⟩)

/-- C10: the leniency claim fails in the program on two counts.  (i) The
lenient behaviour holds only at the `_check_cooldown` level: for a
non-mapping `gate_cooldowns`, an absent entry, or an entry that is neither
a string nor a datetime, the cooldown check reports no active cooldown and
the per-gate locals are exactly those of a gate with no cooldown - but a
*string* entry that is not ISO-parseable raises `ValueError` from
`datetime.fromisoformat` (concrete clause below).  (ii) Even in the
lenient shapes the gate's predicates are not "evaluated normally" to a
decision: every evaluation of a gate raises `TypeError` at the
`GateDecision(...)` construction, so no decision is ever produced.  The
claim's applier contrast does hold: `apply_decisions` raises on a present
non-mapping `gate_cooldowns` (when the two list-shaped collections pass
their own checks, which run first). -/
theorem c10_lenient_cooldown_bug (g : GateConfig) (es : Value)
    (now : PyDateTime)
    (h : isMapping ((lookupO es "gate_cooldowns").getD .null) = false ∨
         lookupO ((lookupO es "gate_cooldowns").getD .null) g.gate_id = none ∨
         (∃ entry, lookupO ((lookupO es "gate_cooldowns").getD .null) g.gate_id = some entry ∧
            (∀ s, entry ≠ .str s) ∧ (∀ d, entry ≠ .dt d))) :
    check_cooldown g es now = .ok false ∧
    (∀ fo fs, decision_fields fo g es fs now =
       decision_fields fo { g with cooldown_seconds := 0 } es fs now) ∧
    (∀ cv fo fs d, evaluate_gate cv fo g es fs now ≠ .ok d) ∧
    (fromisoformat "not-a-date" = none ∧
     matches_state c10Gate c10Entity = true ∧
     0 < c10Gate.cooldown_seconds ∧
     check_cooldown c10Gate c10Entity ⟨0, true⟩ = .error (.invalidIso "not-a-date")) ∧
    (∀ ds cb use, (∃ v, lookupO es "gate_cooldowns" = some v ∧ isMapping v = false) →
       isPyList ((lookupO es "gate_attempts").getD .nilL) = true →
       isPyList ((lookupO es "transitions_applied").getD .nilL) = true →
       apply_decisions es ds cb use = .error .cooldownsNotObject) := by
  have hc1 : check_cooldown g es now = .ok false := by
    by_cases hcd : g.cooldown_seconds ≤ 0
    · simp [check_cooldown, hcd]
    · cases hl : lookupO es "gate_cooldowns" with
      | none => simp [check_cooldown, hcd, hl]
      | some c =>
          rcases h with hmap | hent | ⟨entry, hent, hnstr, hndt⟩
          · rw [hl] at hmap
            simp only [Option.getD_some] at hmap
            simp [check_cooldown, hcd, hl, hmap]
          · rw [hl] at hent
            simp only [Option.getD_some] at hent
            by_cases hm : isMapping c = true
            · simp [check_cooldown, hcd, hl, hm, hent]
            · simp [check_cooldown, hcd, hl, Bool.eq_false_iff.mpr hm]
          · rw [hl] at hent
            simp only [Option.getD_some] at hent
            by_cases hm : isMapping c = true
            · cases entry with
              | str s => exact absurd rfl (hnstr s)
              | dt d => exact absurd rfl (hndt d)
              | _ => simp [check_cooldown, hcd, hl, hm, hent]
            · simp [check_cooldown, hcd, hl, Bool.eq_false_iff.mpr hm]
  have hc2 : check_cooldown { g with cooldown_seconds := 0 } es now = .ok false := by
    simp [check_cooldown]
  refine ⟨hc1, ?_, ?_, ?_, ?_⟩
  · intro fo fs
    simp only [decision_fields, hc1, hc2, exceptBind_ok]
  · intro cv fo fs d
    exact evaluate_gate_never_ok cv fo g es fs now d
  · exact ⟨rfl, rfl, by decide, rfl⟩
  · intro ds cb use hpres hatt happ
    rcases hpres with ⟨v, hv, hbad⟩
    exact apply_err_cooldowns es ds cb use hatt happ (by rw [hv]; exact hbad)

/-- C10 witness: at the concrete entity whose `gate_cooldowns` is the
integer `7`, the cooldown check reports no cooldown, the per-gate locals
are those of a cooldown-free gate, every evaluation of the gate still
raises, and the applier raises on the same state. -/
theorem c10_lenient_cooldown_witness :
    check_cooldown c10Gate c10wEntity ⟨0, true⟩ = .ok false ∧
    (∀ fo fs, decision_fields fo c10Gate c10wEntity fs ⟨0, true⟩ =
       decision_fields fo { c10Gate with cooldown_seconds := 0 } c10wEntity fs ⟨0, true⟩) ∧
    (∀ cv fo fs d, evaluate_gate cv fo c10Gate c10wEntity fs ⟨0, true⟩ ≠ .ok d) ∧
    (fromisoformat "not-a-date" = none ∧
     matches_state c10Gate c10Entity = true ∧
     0 < c10Gate.cooldown_seconds ∧
     check_cooldown c10Gate c10Entity ⟨0, true⟩ = .error (.invalidIso "not-a-date")) ∧
    (∀ ds cb use,
       (∃ v, lookupO c10wEntity "gate_cooldowns" = some v ∧ isMapping v = false) →
       isPyList ((lookupO c10wEntity "gate_attempts").getD .nilL) = true →
       isPyList ((lookupO c10wEntity "transitions_applied").getD .nilL) = true →
       apply_decisions c10wEntity ds cb use = .error .cooldownsNotObject) :=
  c10_lenient_cooldown_bug c10Gate c10wEntity ⟨0, true⟩ (Or.inl rfl)

/-- C5 counterexample: `parse_state_machine_config` accepts the unsupported
operator `"between"` (only non-emptiness of the `op` string is validated),
so the claimed parse-time configuration error is not raised. -/
theorem c5_counterexample :
    ("between" ∈ supported_ops) = False ∧
    (parse_state_machine_config c5Payload).isOk = true ∧
    (parse_state_machine_config c5Payload).map
      (fun c => c.gates.map (fun g => g.hard_requirements.map (fun r => r.op))) =
      .ok [["between"]] := by
  refine ⟨by simp [supported_ops], by decide, by decide⟩

/-- C5 amended: the operator set is not validated at parse time; instead an
unsupported operator raises `ValueError("unsupported operator: ...")` at
evaluation time whenever the predicate's path resolves (so it is never
silently evaluated to false on a resolved path), while an unresolved path
makes the requirement fail without the operator ever being consulted. -/
theorem c5_unsupported_op_amended (op : String) (hop : op ∉ supported_ops) :
    (∀ actual expected, compare_op op actual expected = .error (.unsupportedOp op)) ∧
    (∀ src fld v actual, get_path src fld = some actual →
       requirement_passed src fld op v = .error (.unsupportedOp op)) ∧
    (∀ src fld v, get_path src fld = none →
       requirement_passed src fld op v = .ok false) := by
  simp only [supported_ops, List.mem_cons, List.not_mem_nil, or_false, not_or] at hop
  obtain ⟨h1, h2, h3, h4, h5, h6, h7, h8, h9, h10⟩ := hop
  refine ⟨?_, ?_, ?_⟩
  · intro actual expected
    simp [compare_op, h1, h2, h3, h4, h5, h6, h7, h8]
  · intro src fld v actual hget
    simp [requirement_passed, h9, h10, hget, compare_op, h1, h2, h3, h4, h5, h6, h7, h8]
  · intro src fld v hget
    simp [requirement_passed, h9, h10, hget]

/-- C5 amended witness: instantiated at the concrete operator `"between"`. -/
theorem c5_unsupported_op_witness :
    (∀ actual expected, compare_op "between" actual expected =
       .error (.unsupportedOp "between")) ∧
    (∀ src fld v actual, get_path src fld = some actual →
       requirement_passed src fld "between" v = .error (.unsupportedOp "between")) ∧
    (∀ src fld v, get_path src fld = none →
       requirement_passed src fld "between" v = .ok false) :=
  c5_unsupported_op_amended "between" (by decide)

theorem isMapping_of_lookupO (v : Value) (k : String) (w : Value)
    (h : lookupO v k = some w) : isMapping v = true := by
  cases v with
  | consO k2 v2 rest => rfl
  | _ => exact absurd h (by simp [lookupO])

/-- C2: cooldown blocking as the program actually runs.  For a gate with a
positive cooldown that passes the match filter and an in-window cooldown
entry (ISO string or datetime, naive timestamps read as UTC),
`_check_cooldown` reports an active cooldown and the per-gate locals
become `passed = False`, `reason = "cooldown_active"`, no failed
requirement - with no requirement or threshold consulted (the locals are
identical with both predicate lists emptied).  But the claimed decision is
never produced: constructing it raises `TypeError` (the `GateDecision(...)`
call omits the required `cooldown_scope`/`cooldown_scope_key` arguments),
so `evaluate_gates` never returns a decision list.  The override-free
hypothesis keeps the reason clause meaningful; the concrete final clause
shows that with a failure override present even the computed reason local
is the override string, not `"cooldown_active"`. -/
theorem c2_cooldown_blocking_bug (cfg : StateMachineConfig) (g : GateConfig)
    (es fs : Value) (now last : PyDateTime)
    (hg : g ∈ cfg.gates)
    (hcd : 0 < g.cooldown_seconds)
    (hmatch : matches_state g es = true)
    (hparse : lookupO ((lookupO es "gate_cooldowns").getD .null) g.gate_id = some (.dt last) ∨
              (∃ s, lookupO ((lookupO es "gate_cooldowns").getD .null) g.gate_id =
                 some (.str s) ∧ fromisoformat s = some last))
    (hopen : cooldown_window_open last now g.cooldown_seconds = true)
    (hnoov : override_for (effective_overrides es) g.gate_id = none) :
    check_cooldown g es now = .ok true ∧
    decision_fields (effective_overrides es) g es fs now =
      .ok (true, false, some "cooldown_active", none) ∧
    decision_fields (effective_overrides es)
        { g with hard_requirements := [], soft_thresholds := [] } es fs now =
      decision_fields (effective_overrides es) g es fs now ∧
    evaluate_gate cfg.config_version (effective_overrides es) g es fs now =
      .error .typeErrorDecision ∧
    (∀ ds, evaluate_gates cfg es fs now ≠ .ok ds) ∧
    decision_fields (effective_overrides c2Entity) c2Gate c2Entity .nilO ⟨0, true⟩ =
      .ok (true, false, some "manual_hold", none) := by
  have hne : ¬ g.cooldown_seconds ≤ 0 := not_le.mpr hcd
  obtain ⟨c, hl⟩ : ∃ c, lookupO es "gate_cooldowns" = some c := by
    cases hl : lookupO es "gate_cooldowns" with
    | none =>
        rw [hl] at hparse
        rcases hparse with hparse | ⟨s, hparse, _⟩ <;> simp [lookupO] at hparse
    | some c => exact ⟨c, rfl⟩
  rw [hl, Option.getD_some] at hparse
  have hm : isMapping c = true := by
    rcases hparse with hparse | ⟨s, hparse, _⟩ <;> exact isMapping_of_lookupO c g.gate_id _ hparse
  have hcc : check_cooldown g es now = .ok true := by
    rcases hparse with hparse | ⟨s, hparse, hiso⟩
    · simp [check_cooldown, hne, hl, hm, hparse, hopen]
    · simp [check_cooldown, hne, hl, hm, hparse, hiso, hopen]
  have hcc2 : check_cooldown { g with hard_requirements := [], soft_thresholds := [] } es now =
      .ok true := hcc
  have hfields : decision_fields (effective_overrides es) g es fs now =
      .ok (true, false, some "cooldown_active", none) := by
    simp only [decision_fields, hcc, exceptBind_ok]
    simp only [if_true, Bool.false_and, Bool.not_true, hnoov]
    rfl
  have hfields2 : decision_fields (effective_overrides es)
      { g with hard_requirements := [], soft_thresholds := [] } es fs now =
      .ok (true, false, some "cooldown_active", none) := by
    simp only [decision_fields, hcc2, exceptBind_ok]
    simp only [if_true, Bool.false_and, Bool.not_true, hnoov]
    rfl
  refine ⟨hcc, hfields, hfields2.trans hfields.symm, ?_, ?_, by decide⟩
  · exact evaluate_gate_fields_ok cfg.config_version (effective_overrides es) g es fs now
      _ hfields
  · intro ds
    exact eval_gates_loop_no_ok cfg.config_version (effective_overrides es) es fs now
      g hmatch cfg.gates hg ds

/-- C2 witness: the blocking locals and the constructor crash at a concrete
in-window cooldown entry. -/
theorem c2_cooldown_blocking_witness :
    check_cooldown c2Gate c2wEntity ⟨0, true⟩ = .ok true ∧
    decision_fields (effective_overrides c2wEntity) c2Gate c2wEntity .nilO ⟨0, true⟩ =
      .ok (true, false, some "cooldown_active", none) ∧
    decision_fields (effective_overrides c2wEntity)
        { c2Gate with hard_requirements := [], soft_thresholds := [] } c2wEntity .nilO
        ⟨0, true⟩ =
      decision_fields (effective_overrides c2wEntity) c2Gate c2wEntity .nilO ⟨0, true⟩ ∧
    evaluate_gate c2wConfig.config_version (effective_overrides c2wEntity) c2Gate
        c2wEntity .nilO ⟨0, true⟩ = .error .typeErrorDecision ∧
    (∀ ds, evaluate_gates c2wConfig c2wEntity .nilO ⟨0, true⟩ ≠ .ok ds) ∧
    decision_fields (effective_overrides c2Entity) c2Gate c2Entity .nilO ⟨0, true⟩ =
      .ok (true, false, some "manual_hold", none) :=
  c2_cooldown_blocking_bug c2wConfig c2Gate c2wEntity .nilO ⟨0, true⟩ ⟨-300, true⟩
    (by simp [c2wConfig]) (by decide) rfl (Or.inl rfl) (by decide) rfl

theorem first_failing_hard_append (es fs : Value) (reqs1 : List HardRequirement)
    (r : HardRequirement) (reqs2 : List HardRequirement)
    (hpass : ∀ r1 ∈ reqs1,
      requirement_passed (if r1.source = "entity" then es else fs) r1.field r1.op r1.value =
        .ok true)
    (hfail : requirement_passed (if r.source = "entity" then es else fs) r.field r.op r.value =
      .ok false) :
    first_failing_hard es fs (reqs1 ++ r :: reqs2) = .ok (some r) := by
  induction reqs1 with
  | nil =>
      simp only [List.nil_append, first_failing_hard, hfail, exceptBind_ok]
      rfl
  | cons r1 rest ih =>
      have h1 := hpass r1 (List.mem_cons_self r1 rest)
      simp only [List.cons_append, first_failing_hard, h1, exceptBind_ok, if_true]
      exact ih (fun r2 hr2 => hpass r2 (List.mem_cons_of_mem r1 hr2))

/-- C3: the claim's requirement semantics hold up to the point where the
code crashes.  Operator semantics of a single requirement
(`exists`/`not_exists` are pure presence checks, any other operator fails
on an absent path and otherwise applies the comparison to the resolved
value), and hard requirements are evaluated in declared order with the
first failing one short-circuiting the rest, so the per-gate locals carry
the failing requirement's id and the gate's taxonomy reason for it
(default `"hard_requirement_failed"`, replaced by a failure override when
one applies - see the concrete final clause).  But the claimed decision is
never produced: for every evaluated gate the `GateDecision(...)` call
omits the required `cooldown_scope`/`cooldown_scope_key` arguments and
raises `TypeError`. -/
theorem c3_hard_requirements_bug :
    (∀ src fld v, requirement_passed src fld "exists" v = .ok (get_path src fld).isSome) ∧
    (∀ src fld v, requirement_passed src fld "not_exists" v = .ok (get_path src fld).isNone) ∧
    (∀ op src fld v, op ≠ "exists" → op ≠ "not_exists" → get_path src fld = none →
       requirement_passed src fld op v = .ok false) ∧
    (∀ op src fld v actual, op ≠ "exists" → op ≠ "not_exists" →
       get_path src fld = some actual →
       requirement_passed src fld op v = compare_op op actual v) ∧
    (∀ (g : GateConfig) (fo es fs : Value) (now : PyDateTime) reqs1 r reqs2,
       g.hard_requirements = reqs1 ++ r :: reqs2 →
       check_cooldown g es now = .ok false →
       (∀ r1 ∈ reqs1,
         requirement_passed (if r1.source = "entity" then es else fs) r1.field r1.op r1.value =
           .ok true) →
       requirement_passed (if r.source = "entity" then es else fs) r.field r.op r.value =
         .ok false →
       override_for fo g.gate_id = none →
       decision_fields fo g es fs now =
         .ok (false, false,
           some ((g.failure_taxonomy.lookup r.requirement_id).getD "hard_requirement_failed"),
           some r.requirement_id) ∧
       decision_fields fo g es fs now =
         decision_fields fo { g with hard_requirements := reqs1 ++ [r] } es fs now ∧
       (∀ cv, evaluate_gate cv fo g es fs now = .error .typeErrorDecision)) ∧
    (check_cooldown c3Gate c3Entity ⟨0, true⟩ = .ok false ∧
     matches_state c3Gate c3Entity = true ∧
     requirement_passed c3Features "x.ok" "gte" (.int 10) = .ok false ∧
     (c3Gate.failure_taxonomy.lookup "r1").getD "hard_requirement_failed" = "insufficient" ∧
     decision_fields (effective_overrides c3Entity) c3Gate c3Entity c3Features ⟨0, true⟩ =
       .ok (false, false, some "manual_hold", some "r1")) := by
  refine ⟨?_, ?_, ?_, ?_, ?_, ?_⟩
  · intro src fld v; simp [requirement_passed]
  · intro src fld v; simp [requirement_passed]
  · intro op src fld v h1 h2 hget; simp [requirement_passed, h1, h2, hget]
  · intro op src fld v actual h1 h2 hget; simp [requirement_passed, h1, h2, hget]
  · intro g fo es fs now reqs1 r reqs2 hhr hcc hpass hfail hnoov
    have hffh : first_failing_hard es fs g.hard_requirements = .ok (some r) := by
      rw [hhr]; exact first_failing_hard_append es fs reqs1 r reqs2 hpass hfail
    have hffh2 : first_failing_hard es fs (reqs1 ++ [r]) = .ok (some r) :=
      first_failing_hard_append es fs reqs1 r [] hpass hfail
    have hcc2 : check_cooldown { g with hard_requirements := reqs1 ++ [r] } es now =
        .ok false := hcc
    have hfields : decision_fields fo g es fs now =
        .ok (false, false,
          some ((g.failure_taxonomy.lookup r.requirement_id).getD "hard_requirement_failed"),
          some r.requirement_id) := by
      simp only [decision_fields, hcc, exceptBind_ok, Bool.false_eq_true, if_false, hffh]
      simp only [exceptBind_ok, Bool.false_and, Bool.not_false, if_true, hnoov]
      rfl
    have hfields2 : decision_fields fo { g with hard_requirements := reqs1 ++ [r] } es fs now =
        .ok (false, false,
          some ((g.failure_taxonomy.lookup r.requirement_id).getD "hard_requirement_failed"),
          some r.requirement_id) := by
      simp only [decision_fields, hcc2, exceptBind_ok, Bool.false_eq_true, if_false, hffh2]
      simp only [exceptBind_ok, Bool.false_and, Bool.not_false, if_true, hnoov]
      rfl
    refine ⟨hfields, hfields.trans hfields2.symm, ?_⟩
    intro cv
    exact evaluate_gate_fields_ok cv fo g es fs now _ hfields
  · exact ⟨rfl, rfl, by decide, rfl, by decide⟩

/-- C3 witness: operator semantics, the short-circuiting hard failure in
the locals, and the constructor crash at concrete inputs. -/
theorem c3_hard_requirements_witness :
    requirement_passed c3wFeatures "x" "exists" Value.null =
      .ok (get_path c3wFeatures "x").isSome ∧
    (decision_fields Value.nilO c3wGate Value.nilO c3wFeatures ⟨0, true⟩ =
       .ok (false, false,
         some ((c3wGate.failure_taxonomy.lookup c3wR2.requirement_id).getD
           "hard_requirement_failed"),
         some c3wR2.requirement_id) ∧
     decision_fields Value.nilO c3wGate Value.nilO c3wFeatures ⟨0, true⟩ =
       decision_fields Value.nilO { c3wGate with hard_requirements := [c3wR1] ++ [c3wR2] }
         Value.nilO c3wFeatures ⟨0, true⟩ ∧
     (∀ cv, evaluate_gate cv Value.nilO c3wGate Value.nilO c3wFeatures ⟨0, true⟩ =
        .error .typeErrorDecision)) := by
  refine ⟨c3_hard_requirements_bug.1 c3wFeatures "x" Value.null, ?_⟩
  exact c3_hard_requirements_bug.2.2.2.2.1 c3wGate Value.nilO Value.nilO c3wFeatures
    ⟨0, true⟩ [c3wR1] c3wR2 _ rfl (by decide)
    (fun r1 hr1 => by rcases List.mem_singleton.mp hr1 with rfl; decide)
    (by decide) rfl

theorem first_failing_hard_none (es fs : Value) (reqs : List HardRequirement)
    (hpass : ∀ r ∈ reqs,
      requirement_passed (if r.source = "entity" then es else fs) r.field r.op r.value =
        .ok true) :
    first_failing_hard es fs reqs = .ok none := by
  induction reqs with
  | nil => rfl
  | cons r rest ih =>
      have h1 := hpass r (List.mem_cons_self r rest)
      simp only [first_failing_hard, h1, exceptBind_ok, if_true]
      exact ih (fun r2 hr2 => hpass r2 (List.mem_cons_of_mem r hr2))

theorem count_soft_passes_eq_countP (es fs : Value) (sts : List SoftThreshold)
    (sat : SoftThreshold → Bool)
    (hall : ∀ t ∈ sts,
      requirement_passed (if t.source = "entity" then es else fs) t.field t.op t.value =
        .ok (sat t)) :
    count_soft_passes es fs sts = .ok (sts.countP sat) := by
  induction sts with
  | nil => rfl
  | cons t rest ih =>
      have h1 := hall t (List.mem_cons_self t rest)
      have h2 := ih (fun t2 ht2 => hall t2 (List.mem_cons_of_mem t ht2))
      simp only [count_soft_passes, h1, h2, exceptBind_ok, List.countP_cons]
      cases hs : sat t <;> simp [hs]

theorem count_soft_passes_error (es fs : Value) (t1s : List SoftThreshold)
    (t : SoftThreshold) (t2s : List SoftThreshold) (e : EvalErr)
    (hok : ∀ t1 ∈ t1s, ∃ b,
      requirement_passed (if t1.source = "entity" then es else fs) t1.field t1.op t1.value =
        .ok b)
    (herr : requirement_passed (if t.source = "entity" then es else fs) t.field t.op t.value =
      .error e) :
    count_soft_passes es fs (t1s ++ t :: t2s) = .error e := by
  induction t1s with
  | nil => simp only [List.nil_append, count_soft_passes, herr, exceptBind_error]
  | cons t1 rest ih =>
      obtain ⟨b, hb⟩ := hok t1 (List.mem_cons_self t1 rest)
      have h2 := ih (fun t2 ht2 => hok t2 (List.mem_cons_of_mem t1 ht2))
      simp only [List.cons_append, count_soft_passes, hb, exceptBind_ok]
      rw [show rest.append (t :: t2s) = rest ++ t :: t2s from rfl, h2]
      rfl

/-- C4: the claim's quorum semantics hold at the level of the per-gate
locals, but no decision carrying them is ever produced.  After the hard
requirements all pass, the soft stage of a gate with at least one
threshold passes iff the number of satisfied thresholds reaches
`min_soft_passed` (defaulting to all of them), depending only on that
count; on a quorum failure the computed reason local is exactly
`"soft_threshold_failed"` (replaced by a failure override when one applies
- see the concrete final clause); every threshold is evaluated (no
short-circuit): an evaluation error in any threshold aborts the whole call
even when earlier thresholds already decided the quorum.  The claimed
decision itself is never returned: the `GateDecision(...)` call omits the
required `cooldown_scope`/`cooldown_scope_key` arguments and raises
`TypeError`. -/
theorem c4_soft_quorum_bug :
    (∀ (g : GateConfig) (fo es fs : Value) (now : PyDateTime) (sat : SoftThreshold → Bool),
      g.soft_thresholds ≠ [] →
      check_cooldown g es now = .ok false →
      (∀ r ∈ g.hard_requirements,
        requirement_passed (if r.source = "entity" then es else fs) r.field r.op r.value =
          .ok true) →
      (∀ t ∈ g.soft_thresholds,
        requirement_passed (if t.source = "entity" then es else fs) t.field t.op t.value =
          .ok (sat t)) →
      override_for fo g.gate_id = none →
      ∃ p rs, decision_fields fo g es fs now = .ok (false, p, rs, none) ∧
        (p = true ↔
          g.min_soft_passed.getD (g.soft_thresholds.length : Int) ≤
            (g.soft_thresholds.countP sat : Int)) ∧
        ((g.soft_thresholds.countP sat : Int) <
            g.min_soft_passed.getD (g.soft_thresholds.length : Int) →
          rs = some "soft_threshold_failed") ∧
        (g.min_soft_passed.getD (g.soft_thresholds.length : Int) ≤
            (g.soft_thresholds.countP sat : Int) →
          rs = none) ∧
        (∀ cv, evaluate_gate cv fo g es fs now = .error .typeErrorDecision)) ∧
    (∀ cv (g : GateConfig) (fo es fs : Value) (now : PyDateTime) t1s t0 t2s e,
      g.soft_thresholds = t1s ++ t0 :: t2s →
      check_cooldown g es now = .ok false →
      (∀ r ∈ g.hard_requirements,
        requirement_passed (if r.source = "entity" then es else fs) r.field r.op r.value =
          .ok true) →
      (∀ t1 ∈ t1s, ∃ b,
        requirement_passed (if t1.source = "entity" then es else fs) t1.field t1.op t1.value =
          .ok b) →
      requirement_passed (if t0.source = "entity" then es else fs) t0.field t0.op t0.value =
        .error e →
      evaluate_gate cv fo g es fs now = .error e) ∧
    (check_cooldown c4Gate c4Entity ⟨0, true⟩ = .ok false ∧
     matches_state c4Gate c4Entity = true ∧
     requirement_passed (.consO "score" (.float (mkRat 1 10)) .nilO) "score" "gte"
       (.float (mkRat 7 10)) = .ok false ∧
     decision_fields (effective_overrides c4Entity) c4Gate c4Entity
       (.consO "score" (.float (mkRat 1 10)) .nilO) ⟨0, true⟩ =
       .ok (false, false, some "manual_hold", none)) := by
  refine ⟨?_, ?_, ⟨rfl, rfl, by decide, by decide⟩⟩
  · intro g fo es fs now sat hne hcc hhard hsoft hnoov
    have hffh : first_failing_hard es fs g.hard_requirements = .ok none :=
      first_failing_hard_none es fs g.hard_requirements hhard
    have hcount : count_soft_passes es fs g.soft_thresholds =
        .ok (g.soft_thresholds.countP sat) :=
      count_soft_passes_eq_countP es fs g.soft_thresholds sat hsoft
    have hemp : g.soft_thresholds.isEmpty = false := by
      cases h : g.soft_thresholds with
      | nil => exact absurd h hne
      | cons a l => rfl
    by_cases hq : (g.soft_thresholds.countP sat : Int) <
        g.min_soft_passed.getD (g.soft_thresholds.length : Int)
    · have hfields : decision_fields fo g es fs now =
          .ok (false, false, some "soft_threshold_failed", none) := by
        simp only [decision_fields, hcc, hffh, hcount, hemp, exceptPure, exceptBind_ok,
          Bool.false_eq_true, if_false, Bool.not_false, Bool.true_and, Bool.and_true,
          Bool.and_self, if_true]
        rw [if_pos hq]
        simp only [exceptPure, exceptBind_ok, Bool.not_false, if_true, hnoov]
      refine ⟨false, some "soft_threshold_failed", hfields, ?_,
        fun _ => rfl, fun hc => absurd hc (not_le.mpr hq), ?_⟩
      · simp only [Bool.false_eq_true, false_iff]
        exact not_le.mpr hq
      · intro cv
        exact evaluate_gate_fields_ok cv fo g es fs now _ hfields
    · have hfields : decision_fields fo g es fs now =
          .ok (false, true, none, none) := by
        simp only [decision_fields, hcc, hffh, hcount, hemp, exceptPure, exceptBind_ok,
          Bool.false_eq_true, if_false, Bool.not_false, Bool.true_and, Bool.and_true,
          Bool.and_self, if_true]
        rw [if_neg hq]
        simp only [exceptPure, exceptBind_ok, Bool.not_true, Bool.false_eq_true, if_false]
      refine ⟨true, none, hfields, ?_, fun hc => absurd hc hq, fun _ => rfl, ?_⟩
      · simp only [true_iff]
        exact not_lt.mp hq
      · intro cv
        exact evaluate_gate_fields_ok cv fo g es fs now _ hfields
  · intro cv g fo es fs now t1s t0 t2s e hsplit hcc hhard hok herr
    have hffh : first_failing_hard es fs g.hard_requirements = .ok none :=
      first_failing_hard_none es fs g.hard_requirements hhard
    have hcerr : count_soft_passes es fs g.soft_thresholds = .error e := by
      rw [hsplit]; exact count_soft_passes_error es fs t1s t0 t2s e hok herr
    have hemp : g.soft_thresholds.isEmpty = false := by
      rw [hsplit]; cases t1s <;> rfl
    have hfe : decision_fields fo g es fs now = .error e := by
      simp only [decision_fields, hcc, hffh, hcerr, hemp, exceptPure, exceptBind_ok,
        Bool.false_eq_true, if_false, Bool.not_false, Bool.true_and, Bool.and_true,
        Bool.and_self, if_true]
      rfl
    exact evaluate_gate_fields_error cv fo g es fs now e hfe

/-- C4 witness: the quorum rule over the locals, the constructor crash, and
the no-short-circuit error propagation at concrete inputs. -/
theorem c4_soft_quorum_witness :
    (∃ p rs, decision_fields Value.nilO c4wGate Value.nilO c4wFeatures ⟨0, true⟩ =
        .ok (false, p, rs, none) ∧
       (p = true ↔
         c4wGate.min_soft_passed.getD (c4wGate.soft_thresholds.length : Int) ≤
           (c4wGate.soft_thresholds.countP (fun t => t.threshold_id == "t1") : Int)) ∧
       ((c4wGate.soft_thresholds.countP (fun t => t.threshold_id == "t1") : Int) <
           c4wGate.min_soft_passed.getD (c4wGate.soft_thresholds.length : Int) →
         rs = some "soft_threshold_failed") ∧
       (c4wGate.min_soft_passed.getD (c4wGate.soft_thresholds.length : Int) ≤
           (c4wGate.soft_thresholds.countP (fun t => t.threshold_id == "t1") : Int) →
         rs = none) ∧
       (∀ cv, evaluate_gate cv Value.nilO c4wGate Value.nilO c4wFeatures ⟨0, true⟩ =
          .error .typeErrorDecision)) ∧
    evaluate_gate "v" Value.nilO c4eGate Value.nilO c4wFeatures ⟨0, true⟩ =
      .error (.unsupportedOp "between") := by
  constructor
  · refine c4_soft_quorum_bug.1 c4wGate Value.nilO Value.nilO c4wFeatures ⟨0, true⟩
      (fun t => t.threshold_id == "t1") (by decide) rfl
      (fun r hr => absurd hr (List.not_mem_nil r)) ?_ rfl
    intro t ht
    simp only [c4wGate] at ht
    rcases List.mem_cons.mp ht with rfl | ht2
    · decide
    · rcases List.mem_singleton.mp ht2 with rfl
      decide
  · refine c4_soft_quorum_bug.2.1 "v" c4eGate Value.nilO Value.nilO c4wFeatures ⟨0, true⟩
      []
      ({ threshold_id := "te", field := "s.a", op := "between", value := .int 3 })
      [] (.unsupportedOp "between") rfl rfl
      (fun r hr => absurd hr (List.not_mem_nil r))
      (fun t ht => absurd ht (List.not_mem_nil t)) (by decide)

theorem collect_emissions_ok (use : Bool) (d : GateDecision) (eid : Value)
    (cb : Option String) (tasks : List String) :
    collect_emissions use d eid cb tasks = .ok (tasks.map (fun t => base_emission d t eid cb)) := by
  induction tasks with
  | nil => rfl
  | cons t rest ih =>
      have hb : build_emission use d t eid cb = .ok (base_emission d t eid cb) := by
        cases use <;> rfl
      simp only [collect_emissions, hb, ih, exceptBind_ok, List.map_cons]

theorem apply_loop_step (cb : Option String) (use : Bool) (eid : Value)
    (d : GateDecision) (rest : List GateDecision) (a p c : Value) (st : Option String)
    (ems : List Value) :
    apply_loop cb use eid (d :: rest) a p c st ems =
      apply_loop cb use eid rest (appendL a (attempt_record d))
        (if d.passed then appendL p (applied_record d cb) else p)
        (if cooldown_update_cond d then
          setO c d.gate_id (.str d.transition_attempted.timestamp.isoformat)
        else c)
        (if d.passed then some d.to_state else st)
        (ems ++ (if d.passed then
          d.enqueue_tasks_on_pass.map (fun t => base_emission d t eid cb) else [])) := by
  cases hp : d.passed with
  | true =>
      simp only [apply_loop, hp, if_true,
        collect_emissions_ok use d eid cb d.enqueue_tasks_on_pass, exceptBind_ok, exceptPure]
  | false =>
      simp only [apply_loop, hp, Bool.false_eq_true, if_false, exceptPure, exceptBind_ok]

theorem apply_loop_cooldown_untouched (cb : Option String) (use : Bool) (eid : Value)
    (ds : List GateDecision) :
    ∀ (a p c : Value) (st : Option String) (ems : List Value) (gid : String),
      (∀ d ∈ ds, d.gate_id ≠ gid) →
      ∀ r, apply_loop cb use eid ds a p c st ems = .ok r →
        lookupO r.2.2.1 gid = lookupO c gid := by
  induction ds with
  | nil =>
      intro a p c st ems gid hni r hr
      cases hr
      rfl
  | cons d rest ih =>
      intro a p c st ems gid hni r hr
      rw [apply_loop_step] at hr
      have hrest := ih _ _ _ _ _ gid (fun d2 h2 => hni d2 (List.mem_cons_of_mem d h2)) r hr
      rw [hrest]
      by_cases hcu : cooldown_update_cond d = true
      · rw [if_pos hcu, lookupO_setO_ne c d.gate_id gid _ (Ne.symm (hni d (List.mem_cons_self d rest)))]
      · rw [if_neg hcu]

theorem apply_loop_spec (cb : Option String) (use : Bool) (eid : Value)
    (ds : List GateDecision) :
    ∀ (a p c : Value) (st : Option String) (ems : List Value),
      ds.Pairwise (fun d1 d2 => d1.gate_id ≠ d2.gate_id) →
      ∃ r, apply_loop cb use eid ds a p c st ems = .ok r ∧
        listItems r.1 = listItems a ++ ds.map attempt_record ∧
        (∀ d ∈ ds, cooldown_update_cond d = true →
          lookupO r.2.2.1 d.gate_id =
            some (.str d.transition_attempted.timestamp.isoformat)) ∧
        (∀ d ∈ ds, cooldown_update_cond d = false →
          lookupO r.2.2.1 d.gate_id = lookupO c d.gate_id) := by
  induction ds with
  | nil =>
      intro a p c st ems _
      exact ⟨(a, p, c, st, ems), rfl, by simp [listItems], by simp, by simp⟩
  | cons d rest ih =>
      intro a p c st ems hdist
      rcases List.pairwise_cons.mp hdist with ⟨hhead, htail⟩
      set c2 := (if cooldown_update_cond d then
        setO c d.gate_id (.str d.transition_attempted.timestamp.isoformat) else c) with hc2
      obtain ⟨r, hr, hatt, hcu, hcn⟩ := ih (appendL a (attempt_record d))
        (if d.passed then appendL p (applied_record d cb) else p) c2
        (if d.passed then some d.to_state else st)
        (ems ++ (if d.passed then
          d.enqueue_tasks_on_pass.map (fun t => base_emission d t eid cb) else [])) htail
      refine ⟨r, ?_, ?_, ?_, ?_⟩
      · rw [apply_loop_step, ← hc2]
        exact hr
      · rw [hatt, listItems_appendL, List.map_cons, List.append_assoc, List.singleton_append]
      · intro d2 hd2 hcond
        rcases List.mem_cons.mp hd2 with rfl | hd2
        · have huntouched := apply_loop_cooldown_untouched cb use eid rest _ _ _ _ _
            d2.gate_id (fun d3 h3 => (hhead d3 h3).symm) r hr
          rw [huntouched, hc2, if_pos hcond, lookupO_setO_self]
        · exact hcu d2 hd2 hcond
      · intro d2 hd2 hcond
        rcases List.mem_cons.mp hd2 with rfl | hd2
        · have huntouched := apply_loop_cooldown_untouched cb use eid rest _ _ _ _ _
            d2.gate_id (fun d3 h3 => (hhead d3 h3).symm) r hr
          rw [huntouched, hc2, if_neg (by rw [hcond]; exact Bool.false_ne_true)]
        · rw [hcn d2 hd2 hcond, hc2]
          by_cases hcd : cooldown_update_cond d = true
          · rw [if_pos hcd, lookupO_setO_ne c d.gate_id d2.gate_id _ (Ne.symm (hhead d2 hd2))]
          · rw [if_neg hcd]

/-- C7 amended: for well-shaped collections and decisions with pairwise
distinct gate ids (gate ids are unique in any parsed configuration, per
the duplicate check of `parse_state_machine_config`), `apply_decisions`
succeeds, the
returned `gate_attempts` is the input log with exactly one attempt record
appended per decision, pass or fail, in decision order, and per decision the
returned `gate_cooldowns` maps its gate id to the attempt timestamp exactly
for `cooldown_on = "attempt"` decisions or passing `cooldown_on = "pass"`
decisions, every other decision leaving the gate's entry as it was in the
input. -/
theorem c7_attempt_log_and_cooldowns_amended (es : Value) (ds : List GateDecision)
    (cb : Option String) (use : Bool)
    (hatt : isPyList ((lookupO es "gate_attempts").getD .nilL) = true)
    (happ : isPyList ((lookupO es "transitions_applied").getD .nilL) = true)
    (hcd : isMapping ((lookupO es "gate_cooldowns").getD .nilO) = true)
    (hdist : ds.Pairwise (fun d1 d2 => d1.gate_id ≠ d2.gate_id)) :
    ∃ st ems, apply_decisions es ds cb use = .ok (st, ems) ∧
      listItems ((lookupO st "gate_attempts").getD .null) =
        listItems ((lookupO es "gate_attempts").getD .nilL) ++ ds.map attempt_record ∧
      (∀ d ∈ ds, cooldown_update_cond d = true →
        lookupO ((lookupO st "gate_cooldowns").getD .null) d.gate_id =
          some (.str d.transition_attempted.timestamp.isoformat)) ∧
      (∀ d ∈ ds, cooldown_update_cond d = false →
        lookupO ((lookupO st "gate_cooldowns").getD .null) d.gate_id =
          lookupO ((lookupO es "gate_cooldowns").getD .nilO) d.gate_id) := by
  have e1 : (setdefaultO es "gate_attempts" Value.nilL).2 =
      (lookupO es "gate_attempts").getD .nilL := setdefaultO_snd es "gate_attempts" .nilL
  have e2 : (setdefaultO (setdefaultO es "gate_attempts" Value.nilL).1
      "transitions_applied" Value.nilL).2 = (lookupO es "transitions_applied").getD .nilL := by
    rw [setdefaultO_snd, setdefaultO_fst_lookup_ne es "gate_attempts" .nilL
      "transitions_applied" (by decide)]
  have e3 : (setdefaultO (setdefaultO (setdefaultO es "gate_attempts" Value.nilL).1
      "transitions_applied" Value.nilL).1 "gate_cooldowns" Value.nilO).2 =
      (lookupO es "gate_cooldowns").getD .nilO := by
    rw [setdefaultO_snd,
      setdefaultO_fst_lookup_ne (setdefaultO es "gate_attempts" Value.nilL).1
        "transitions_applied" .nilL "gate_cooldowns" (by decide),
      setdefaultO_fst_lookup_ne es "gate_attempts" .nilL "gate_cooldowns" (by decide)]
  obtain ⟨r, hr, hra, hrc1, hrc2⟩ := apply_loop_spec cb use
    ((lookupO (setdefaultO (setdefaultO (setdefaultO es "gate_attempts" Value.nilL).1
      "transitions_applied" Value.nilL).1 "gate_cooldowns" Value.nilO).1 "entity_id").getD
      Value.null)
    ds ((lookupO es "gate_attempts").getD .nilL) ((lookupO es "transitions_applied").getD .nilL)
    ((lookupO es "gate_cooldowns").getD .nilO) none [] hdist
  have heval : apply_decisions es ds cb use = .ok
      ((match r.2.2.2.1 with
        | some st0 =>
            setO (setO (setO (setO (setdefaultO (setdefaultO (setdefaultO es
              "gate_attempts" Value.nilL).1 "transitions_applied" Value.nilL).1
              "gate_cooldowns" Value.nilO).1 "gate_attempts" r.1)
              "transitions_applied" r.2.1) "gate_cooldowns" r.2.2.1) "state" (.str st0)
        | none =>
            setO (setO (setO (setdefaultO (setdefaultO (setdefaultO es
              "gate_attempts" Value.nilL).1 "transitions_applied" Value.nilL).1
              "gate_cooldowns" Value.nilO).1 "gate_attempts" r.1)
              "transitions_applied" r.2.1) "gate_cooldowns" r.2.2.1),
       r.2.2.2.2) := by
    simp only [apply_decisions, e1, e2, e3, hatt, happ, hcd, Bool.not_true,
      Bool.false_eq_true, if_false, hr, exceptBind_ok]
  set base := setO (setO (setO (setdefaultO (setdefaultO (setdefaultO es
    "gate_attempts" Value.nilL).1 "transitions_applied" Value.nilL).1
    "gate_cooldowns" Value.nilO).1 "gate_attempts" r.1)
    "transitions_applied" r.2.1) "gate_cooldowns" r.2.2.1 with hbase
  have hbga : lookupO base "gate_attempts" = some r.1 := by
    rw [hbase, lookupO_setO_ne _ _ _ _ (by decide), lookupO_setO_ne _ _ _ _ (by decide),
      lookupO_setO_self]
  have hbgc : lookupO base "gate_cooldowns" = some r.2.2.1 := by
    rw [hbase, lookupO_setO_self]
  cases hstu : r.2.2.2.1 with
  | some st0 =>
      rw [hstu] at heval
      refine ⟨_, _, heval, ?_, ?_, ?_⟩
      · rw [lookupO_setO_ne _ _ _ _ (by decide), hbga, Option.getD_some]
        exact hra
      · intro d hd hcond
        rw [lookupO_setO_ne _ _ _ _ (by decide), hbgc, Option.getD_some]
        exact hrc1 d hd hcond
      · intro d hd hcond
        rw [lookupO_setO_ne _ _ _ _ (by decide), hbgc, Option.getD_some]
        exact hrc2 d hd hcond
  | none =>
      rw [hstu] at heval
      refine ⟨_, _, heval, ?_, ?_, ?_⟩
      · rw [hbga, Option.getD_some]
        exact hra
      · intro d hd hcond
        rw [hbgc, Option.getD_some]
        exact hrc1 d hd hcond
      · intro d hd hcond
        rw [hbgc, Option.getD_some]
        exact hrc2 d hd hcond

/-- C7 counterexample: with two decisions sharing gate id `g`, the second
decision triggers no cooldown update, yet the returned `gate_cooldowns`
entry for its gate is not "left as it was in the input" (absent) - the first
decision already wrote it. -/
theorem c7_counterexample :
    cooldown_update_cond c7d2 = false ∧
    lookupO ((lookupO (.nilO : Value) "gate_cooldowns").getD .nilO) "g" = none ∧
    (apply_decisions .nilO [c7d1, c7d2] none false).map
      (fun r => lookupO ((lookupO r.1 "gate_cooldowns").getD .null) "g") =
      .ok (some (.str "100+00:00")) ∧
    some (Value.str "100+00:00") ≠ (none : Option Value) := by
  exact ⟨rfl, rfl, by decide, by decide⟩

/-- C7 amended witness: the attempt log and cooldown rule at two concrete
decisions with distinct gate ids. -/
theorem c7_attempt_log_and_cooldowns_witness :
    ∃ st ems, apply_decisions c7wEs [c7d1, c7w2] none false = .ok (st, ems) ∧
      listItems ((lookupO st "gate_attempts").getD .null) =
        listItems ((lookupO c7wEs "gate_attempts").getD .nilL) ++
          [c7d1, c7w2].map attempt_record ∧
      (∀ d ∈ [c7d1, c7w2], cooldown_update_cond d = true →
        lookupO ((lookupO st "gate_cooldowns").getD .null) d.gate_id =
          some (.str d.transition_attempted.timestamp.isoformat)) ∧
      (∀ d ∈ [c7d1, c7w2], cooldown_update_cond d = false →
        lookupO ((lookupO st "gate_cooldowns").getD .null) d.gate_id =
          lookupO ((lookupO c7wEs "gate_cooldowns").getD .nilO) d.gate_id) :=
  c7_attempt_log_and_cooldowns_amended c7wEs [c7d1, c7w2] none false rfl rfl rfl (by decide)

theorem perm_any {α : Type} {l1 l2 : List α} (h : List.Perm l1 l2) (f : α → Bool) :
    l1.any f = l2.any f := by
  induction h with
  | nil => rfl
  | cons x h ih => simp [List.any_cons, ih]
  | swap x y l => simp [List.any_cons, Bool.or_left_comm]
  | trans h1 h2 ih1 ih2 => exact ih1.trans ih2

theorem attempt_row_sorted_eq (outcomes : List Value) (w : Int)
    (tax : List (String × String)) (a : Value) :
    attempt_row (pySort outcome_sort_le (normalize_outcomes outcomes)) w tax a =
      attempt_row_spec outcomes w tax a := by
  cases hla : lookupO a "attempted_at" with
  | none => simp [attempt_row, attempt_row_spec, hla]
  | some v =>
      cases v with
      | dt attempted_at =>
          have hperm : List.Perm
              ((pySort outcome_sort_le (normalize_outcomes outcomes)).filter (fun row =>
                decide (attempted_at.as_utc.secs ≤ row.1.secs) &&
                decide (row.1.secs ≤ (attempted_at.as_utc.addSeconds w).secs)))
              ((normalize_outcomes outcomes).filter (fun row =>
                decide (attempted_at.as_utc.secs ≤ row.1.secs) &&
                decide (row.1.secs ≤ (attempted_at.as_utc.addSeconds w).secs))) :=
            (perm_pySort outcome_sort_le (normalize_outcomes outcomes)).filter _
          have hany := perm_any (hperm.map Prod.snd) id
          have hlen := (hperm.map Prod.snd).length_eq
          simp only [attempt_row, attempt_row_spec, hla, List.length_map] at *
          rw [hany, hlen]
      | _ => simp [attempt_row, attempt_row_spec, hla]

theorem row_sort_le_trans (a b c : AttemptOutcomeEvaluation)
    (hab : row_sort_le a b = true) (hbc : row_sort_le b c = true) :
    row_sort_le a c = true := by
  simp only [row_sort_le, decide_eq_true_eq] at *
  exact le_trans hab hbc

theorem row_sort_le_total (a b : AttemptOutcomeEvaluation) :
    row_sort_le a b = true ∨ row_sort_le b a = true := by
  simp only [row_sort_le, decide_eq_true_eq]
  exact le_total _ _

/-- C8: for a non-negative window, `evaluate_attempt_outcomes` succeeds, its
rows are exactly the stable sort by `(gate id, attempt timestamp, attempt
id)` of the per-attempt rows given by the claim's labelling table over the
raw outcome events (`attempt_row_spec`), and the result is sorted by that
key. -/
theorem c8_outcome_labeling (attempts outcomes : List Value) (w : Int)
    (tax : List (String × String)) (hw : 0 ≤ w) :
    ∃ rows, evaluate_attempt_outcomes attempts outcomes w tax = .ok rows ∧
      rows = pySort row_sort_le (attempts.filterMap (attempt_row_spec outcomes w tax)) ∧
      rows.Pairwise (fun r1 r2 => row_sort_le r1 r2 = true) := by
  have hmap : attempts.filterMap
      (attempt_row (pySort outcome_sort_le (normalize_outcomes outcomes)) w tax) =
      attempts.filterMap (attempt_row_spec outcomes w tax) :=
    List.filterMap_congr (fun a _ => attempt_row_sorted_eq outcomes w tax a)
  refine ⟨pySort row_sort_le (attempts.filterMap
      (attempt_row (pySort outcome_sort_le (normalize_outcomes outcomes)) w tax)),
    ?_, ?_, ?_⟩
  · simp only [evaluate_attempt_outcomes, if_neg (not_lt.mpr hw)]
  · rw [hmap]
  · rw [hmap]
    exact pairwise_pySort row_sort_le
      (fun a b c => row_sort_le_trans a b c) (fun a b => row_sort_le_total a b)
      (attempts.filterMap (attempt_row_spec outcomes w tax))

/-- C8 witness: the labelling theorem instantiated at a 30-second window;
the rows come back sorted and match the claim-side table
(`moved_too_early` then `false_negative`). -/
theorem c8_outcome_labeling_witness :
    (∃ rows, evaluate_attempt_outcomes c8Attempts c8Outcomes 30 [] = .ok rows ∧
      rows = pySort row_sort_le (c8Attempts.filterMap (attempt_row_spec c8Outcomes 30 [])) ∧
      rows.Pairwise (fun r1 r2 => row_sort_le r1 r2 = true)) ∧
    (evaluate_attempt_outcomes c8Attempts c8Outcomes 30 []).map
      (fun rows => rows.map (fun r => (r.attempt_id, r.label))) =
      .ok [("a1", "moved_too_early"), ("a2", "false_negative")] :=
  ⟨c8_outcome_labeling c8Attempts c8Outcomes 30 [] (by decide), by decide⟩

theorem mem_dedup_first_aux (a : String) :
    ∀ (l seen : List String), a ∈ dedup_first_aux seen l ↔ (a ∈ l ∧ a ∉ seen) := by
  intro l
  induction l with
  | nil => intro seen; simp [dedup_first_aux]
  | cons x rest ih =>
      intro seen
      by_cases hx : x ∈ seen
      · rw [dedup_first_aux, if_pos hx, ih]
        constructor
        · rintro ⟨h1, h2⟩; exact ⟨List.mem_cons_of_mem x h1, h2⟩
        · rintro ⟨h1, h2⟩
          rcases List.mem_cons.mp h1 with rfl | h1
          · exact absurd hx h2
          · exact ⟨h1, h2⟩
      · rw [dedup_first_aux, if_neg hx]
        constructor
        · intro h
          rcases List.mem_cons.mp h with rfl | h
          · exact ⟨List.mem_cons_self a rest, hx⟩
          · rcases (ih (x :: seen)).mp h with ⟨h1, h2⟩
            exact ⟨List.mem_cons_of_mem x h1,
              fun hc => h2 (List.mem_cons_of_mem x hc)⟩
        · rintro ⟨h1, h2⟩
          rcases List.mem_cons.mp h1 with rfl | h1
          · exact List.mem_cons_self a _
          · by_cases hax : a = x
            · subst hax; exact List.mem_cons_self a _
            · refine List.mem_cons_of_mem x ((ih (x :: seen)).mpr ⟨h1, ?_⟩)
              intro hc
              rcases List.mem_cons.mp hc with h3 | h3
              · exact hax h3
              · exact h2 h3

theorem mem_dedup_first (a : String) (l : List String) : a ∈ dedup_first l ↔ a ∈ l := by
  rw [dedup_first, mem_dedup_first_aux]
  simp

theorem proposals_for_gate_fields (evs : List AttemptOutcomeEvaluation) (ms : Int)
    (gid : String) (p : CalibrationProposal) (hp : p ∈ proposals_for_gate evs ms gid) :
    p.gate_id = gid ∧ p.auto_apply = false := by
  rw [proposals_for_gate] at hp
  by_cases h0 : ((gate_samples evs gid).length : Int) < ms
  · rw [if_pos h0] at hp; cases hp
  · rw [if_neg h0] at hp
    rcases List.mem_append.mp hp with hp | hp
    · by_cases h1 : gate_fp_rate evs gid ≥ mkRat 3 10
      · rw [if_pos h1] at hp
        rcases List.mem_cons.mp hp with rfl | hp
        · exact ⟨rfl, rfl⟩
        · rcases List.mem_singleton.mp hp with rfl
          exact ⟨rfl, rfl⟩
      · rw [if_neg h1] at hp; cases hp
    · by_cases h2 : gate_fn_rate evs gid ≥ mkRat 3 10
      · rw [if_pos h2] at hp
        rcases List.mem_singleton.mp hp with rfl
        exact ⟨rfl, rfl⟩
      · rw [if_neg h2] at hp; cases hp

theorem mem_proposals_for_gate (evs : List AttemptOutcomeEvaluation) (ms : Int)
    (gid : String) (p : CalibrationProposal)
    (hlen : ms ≤ ((gate_samples evs gid).length : Int)) :
    p ∈ proposals_for_gate evs ms gid ↔
      ((mkRat 3 10 ≤ gate_fp_rate evs gid ∧
         (p = fp_threshold_proposal gid (round4 (gate_fp_rate evs gid)) ∨
          p = fp_cooldown_proposal gid (round4 (gate_fp_rate evs gid)))) ∨
       (mkRat 3 10 ≤ gate_fn_rate evs gid ∧
         p = fn_threshold_proposal gid (round4 (gate_fn_rate evs gid)))) := by
  rw [proposals_for_gate, if_neg (not_lt.mpr hlen)]
  by_cases h1 : gate_fp_rate evs gid ≥ mkRat 3 10 <;>
    by_cases h2 : gate_fn_rate evs gid ≥ mkRat 3 10 <;>
      simp [h1, h2, List.mem_append, ge_iff_le, or_assoc]

theorem proposal_sort_le_trans (a b c : CalibrationProposal)
    (hab : proposal_sort_le a b = true) (hbc : proposal_sort_le b c = true) :
    proposal_sort_le a c = true := by
  simp only [proposal_sort_le, decide_eq_true_eq] at *
  exact le_trans hab hbc

theorem proposal_sort_le_total (a b : CalibrationProposal) :
    proposal_sort_le a b = true ∨ proposal_sort_le b a = true := by
  simp only [proposal_sort_le, decide_eq_true_eq]
  exact le_total _ _

/-- C9: with `min_samples >= 1`, `generate_calibration_proposals` succeeds;
every proposal has `auto_apply = false`; the output is sorted by `(gate id,
recommendation type, direction, rationale)`; a gate with fewer than
`min_samples` labelled attempts contributes no proposal; and for a gate at
or above the floor, the `threshold_adjustment`/`increase` and
`cooldown_adjustment`/`increase` proposals (confidence = rounded `fp_rate`)
are present iff `fp_rate >= 0.30`, and the `threshold_adjustment`/`decrease`
proposal (confidence = rounded `fn_rate`) is present iff
`fn_rate >= 0.30`. -/
theorem c9_calibration_proposals (evs : List AttemptOutcomeEvaluation) (ms : Int)
    (hm : 1 ≤ ms) :
    ∃ out, generate_calibration_proposals evs ms = .ok out ∧
      (∀ p ∈ out, p.auto_apply = false) ∧
      out.Pairwise (fun p1 p2 => proposal_sort_le p1 p2 = true) ∧
      (∀ gid, ((gate_samples evs gid).length : Int) < ms → ∀ p ∈ out, p.gate_id ≠ gid) ∧
      (∀ gid, ms ≤ ((gate_samples evs gid).length : Int) →
        (mkRat 3 10 ≤ gate_fp_rate evs gid ↔
          fp_threshold_proposal gid (round4 (gate_fp_rate evs gid)) ∈ out) ∧
        (mkRat 3 10 ≤ gate_fp_rate evs gid ↔
          fp_cooldown_proposal gid (round4 (gate_fp_rate evs gid)) ∈ out) ∧
        (mkRat 3 10 ≤ gate_fn_rate evs gid ↔
          fn_threshold_proposal gid (round4 (gate_fn_rate evs gid)) ∈ out)) := by
  refine ⟨pySort proposal_sort_le
    ((pySort gate_id_le (dedup_first (evs.map (fun ev => ev.gate_id)))).flatMap
      (proposals_for_gate evs ms)), ?_, ?_, ?_, ?_, ?_⟩
  · simp only [generate_calibration_proposals, if_neg (not_lt.mpr hm)]
  · intro p hp
    rcases List.mem_flatMap.mp
      ((perm_pySort proposal_sort_le _).mem_iff.mp hp) with ⟨gid, _, hpg⟩
    exact (proposals_for_gate_fields evs ms gid p hpg).2
  · exact pairwise_pySort proposal_sort_le
      (fun a b c => proposal_sort_le_trans a b c) (fun a b => proposal_sort_le_total a b) _
  · intro gid hlow p hp hpeq
    rcases List.mem_flatMap.mp
      ((perm_pySort proposal_sort_le _).mem_iff.mp hp) with ⟨gid2, _, hpg⟩
    have h1 : p.gate_id = gid2 := (proposals_for_gate_fields evs ms gid2 p hpg).1
    have h2 : gid2 = gid := by rw [← h1, hpeq]
    subst h2
    rw [proposals_for_gate, if_pos hlow] at hpg
    cases hpg
  · intro gid hhigh
    have hidmem : gid ∈ pySort gate_id_le (dedup_first (evs.map (fun ev => ev.gate_id))) := by
      have hpos : 0 < (gate_samples evs gid).length := by
        by_contra hc
        push_neg at hc
        have : ((gate_samples evs gid).length : Int) = 0 := by
          omega
        omega
      obtain ⟨ev, hev⟩ := List.exists_mem_of_length_pos hpos
      rcases List.mem_filter.mp hev with ⟨hev1, hev2⟩
      have : ev.gate_id = gid := by
        simpa using hev2
      refine (perm_pySort gate_id_le _).mem_iff.mpr
        ((mem_dedup_first gid _).mpr ?_)
      exact this ▸ List.mem_map_of_mem (fun ev => ev.gate_id) hev1
    have hout : ∀ p, p ∈ pySort proposal_sort_le
        ((pySort gate_id_le (dedup_first (evs.map (fun ev => ev.gate_id)))).flatMap
          (proposals_for_gate evs ms)) ↔
        ∃ gid2 ∈ pySort gate_id_le (dedup_first (evs.map (fun ev => ev.gate_id))),
          p ∈ proposals_for_gate evs ms gid2 := fun p =>
      (perm_pySort proposal_sort_le _).mem_iff.trans List.mem_flatMap
    refine ⟨⟨fun hc => ?_, fun hmem => ?_⟩, ⟨fun hc => ?_, fun hmem => ?_⟩,
      ⟨fun hc => ?_, fun hmem => ?_⟩⟩
    · exact (hout _).mpr ⟨gid, hidmem,
        (mem_proposals_for_gate evs ms gid _ hhigh).mpr (Or.inl ⟨hc, Or.inl rfl⟩)⟩
    · rcases (hout _).mp hmem with ⟨gid2, _, hpg⟩
      have hgid2 : gid2 = gid := by
        have := (proposals_for_gate_fields evs ms gid2 _ hpg).1
        simpa [fp_threshold_proposal] using this.symm
      subst hgid2
      rcases (mem_proposals_for_gate evs ms gid2 _ hhigh).mp hpg with ⟨hc, hrec⟩ | ⟨hc, hrec⟩
      · exact hc
      · exfalso
        have := congrArg CalibrationProposal.direction hrec
        simp [fp_threshold_proposal, fn_threshold_proposal] at this
    · exact (hout _).mpr ⟨gid, hidmem,
        (mem_proposals_for_gate evs ms gid _ hhigh).mpr (Or.inl ⟨hc, Or.inr rfl⟩)⟩
    · rcases (hout _).mp hmem with ⟨gid2, _, hpg⟩
      have hgid2 : gid2 = gid := by
        have := (proposals_for_gate_fields evs ms gid2 _ hpg).1
        simpa [fp_cooldown_proposal] using this.symm
      subst hgid2
      rcases (mem_proposals_for_gate evs ms gid2 _ hhigh).mp hpg with ⟨hc, hrec⟩ | ⟨hc, hrec⟩
      · exact hc
      · exfalso
        have := congrArg CalibrationProposal.recommendation_type hrec
        simp [fp_cooldown_proposal, fn_threshold_proposal] at this
    · exact (hout _).mpr ⟨gid, hidmem,
        (mem_proposals_for_gate evs ms gid _ hhigh).mpr (Or.inr ⟨hc, rfl⟩)⟩
    · rcases (hout _).mp hmem with ⟨gid2, _, hpg⟩
      have hgid2 : gid2 = gid := by
        have := (proposals_for_gate_fields evs ms gid2 _ hpg).1
        simpa [fn_threshold_proposal] using this.symm
      subst hgid2
      rcases (mem_proposals_for_gate evs ms gid2 _ hhigh).mp hpg with ⟨hc, hrec⟩ | ⟨hc, hrec⟩
      · exfalso
        rcases hrec with hrec | hrec
        · have := congrArg CalibrationProposal.direction hrec
          simp [fp_threshold_proposal, fn_threshold_proposal] at this
        · have := congrArg CalibrationProposal.recommendation_type hrec
          simp [fp_cooldown_proposal, fn_threshold_proposal] at this
      · exact hc

/-- C9 witness: the proposal rules instantiated at the concrete labelled
set, together with the concrete sorted output (`cooldown_adjustment` before
`threshold_adjustment`, both confidence `0.5`, no `decrease` proposal). -/
theorem c9_calibration_proposals_witness :
    (∃ out, generate_calibration_proposals c9Evs 3 = .ok out ∧
      (∀ p ∈ out, p.auto_apply = false) ∧
      out.Pairwise (fun p1 p2 => proposal_sort_le p1 p2 = true) ∧
      (∀ gid, ((gate_samples c9Evs gid).length : Int) < 3 → ∀ p ∈ out, p.gate_id ≠ gid) ∧
      (∀ gid, (3 : Int) ≤ ((gate_samples c9Evs gid).length : Int) →
        (mkRat 3 10 ≤ gate_fp_rate c9Evs gid ↔
          fp_threshold_proposal gid (round4 (gate_fp_rate c9Evs gid)) ∈ out) ∧
        (mkRat 3 10 ≤ gate_fp_rate c9Evs gid ↔
          fp_cooldown_proposal gid (round4 (gate_fp_rate c9Evs gid)) ∈ out) ∧
        (mkRat 3 10 ≤ gate_fn_rate c9Evs gid ↔
          fn_threshold_proposal gid (round4 (gate_fn_rate c9Evs gid)) ∈ out))) ∧
    (generate_calibration_proposals c9Evs 3).map
      (fun ps => ps.map (fun p => (p.recommendation_type, p.direction, p.confidence))) =
      .ok [("cooldown_adjustment", "increase", mkRat 1 2),
           ("threshold_adjustment", "increase", mkRat 1 2)] :=
  ⟨c9_calibration_proposals c9Evs 3 (by decide), by decide⟩

end MetaSPN
